import Mathlib

/-!
Verification development for the ELN-XML to PDF converter
(`src/pdf_processor.py`).  The Python module is shallowly embedded below:
pure functions become Lean functions, the mutable buffer/flag style of the
object dispatcher becomes explicit state threading, and floats used for
column widths become exact rationals (`ℚ`).  External collaborators
(the base64/openpyxl workbook decoder, the python-docx text extractor and
the regex-based checklist-text parser) are supplied through an `Env`
record of functions, matching the extraction contracts of the spec; all
repository logic that consumes their results is translated from the
source.  Renderable flowables (Paragraph, Preformatted, Table, Spacer,
PageBreak) are modelled by the inductive `Elem`; presentational table
style commands are carried as descriptive string tokens.
-/

namespace PdfProc

/-- One point of a reportlab inch (72 units), as an exact rational. -/
def inchQ : ℚ := 72

/-- Paragraph styles used by the module (pdf_processor.py lines 35-44). -/
inductive Style
  | h1 | h2 | h3 | h4_table_title | body | body_small | code | error | note
  deriving DecidableEq

/-- Renderable flowables produced by the converter.  A `table` carries the
escaped cell grid, optional column widths, the accumulated style command
tokens and the cell font size. -/
inductive Elem
  | para (s : Style) (text : String)
  | pre (s : Style) (text : String)
  | table (grid : List (List String)) (colWidths : Option (List ℚ))
      (styleCmds : List String) (fontSize : Nat)
  | spacer (size : ℚ)
  | pageBreak
  deriving DecidableEq

def isParagraphE : Elem → Bool
  | .para _ _ => true
  | _ => false

def isSpacerE : Elem → Bool
  | .spacer _ => true
  | _ => false

def isPageBreakE : Elem → Bool
  | .pageBreak => true
  | _ => false

/-!
Python string primitives.  The corresponding `String` library functions
(`trim`, `toLower`, `startsWith`, ...) are implemented over byte
positions with well-founded recursion and do not reduce inside the
kernel, so the embedding uses these character-list implementations,
which have the same semantics on the strings involved (whitespace
stripping is modelled by `Char.isWhitespace`, lowercasing by
`Char.toLower`). -/

/-- Python `s.strip()`. -/
def pyStrip (s : String) : String :=
  String.mk (((s.toList.dropWhile Char.isWhitespace).reverse.dropWhile
    Char.isWhitespace).reverse)

/-- Python `s.lower()`. -/
def pyLower (s : String) : String :=
  String.mk (s.toList.map Char.toLower)

/-- Python `s.startswith(pre)`. -/
def pyStartsWith (s pre : String) : Bool :=
  pre.toList.isPrefixOf s.toList

/-- Whether the character occurs in the string (Python `c in s`). -/
def pyContainsChar (s : String) (c : Char) : Bool :=
  s.toList.contains c

/-- The numeral denoted by a list of decimal digit characters. -/
def digitsToNat (cs : List Char) : Nat :=
  cs.foldl (fun a c => a * 10 + (c.toNat - 48)) 0

/-- Python `s.split(c)` for a single-character separator, over character
lists: splitting keeps empty pieces. -/
def splitOnCharAux (c : Char) : List Char → List (List Char)
  | [] => [[]]
  | x :: xs =>
    let r := splitOnCharAux c xs
    if x = c then [] :: r
    else
      match r with
      | g :: gs => (x :: g) :: gs
      | [] => [[x]]

/-- Per-character expansion of Python `html.escape` (quote=True):
`&`, `<`, `>`, `"` and the apostrophe are replaced by entities. -/
def escCharL (c : Char) : List Char :=
  if c = Char.ofNat 38 then "&amp;".toList
  else if c = Char.ofNat 60 then "&lt;".toList
  else if c = Char.ofNat 62 then "&gt;".toList
  else if c = Char.ofNat 34 then "&quot;".toList
  else if c = Char.ofNat 39 then "&#x27;".toList
  else [c]

/-- Python `html.escape(s)` with the default `quote=True`. -/
def htmlEscape (s : String) : String :=
  String.mk (s.toList.flatMap escCharL)

/-- Python `s[:n] + '...' if len(s) > n else s` (the truncation pattern used
for styled text, Word text and addin blobs); slicing is by code points. -/
def truncAt (n : Nat) (s : String) : String :=
  if s.length > n then String.mk (s.toList.take n) ++ "..." else s

/-- Python `s.replace('.', '', 1)`: drop the first dot, if any. -/
def removeFirstDotAux : List Char → List Char
  | [] => []
  | c :: cs => if c = Char.ofNat 46 then cs else c :: removeFirstDotAux cs

def removeFirstDot (s : String) : String :=
  String.mk (removeFirstDotAux s.toList)

/-- Python `s.isdigit()` (restricted to ASCII digits): nonempty and all
characters are digits. -/
def pyIsDigit (s : String) : Bool :=
  s ≠ "" && s.toList.all Char.isDigit

/-- Python `s.rstrip('.').strip()`, the key normalisation used when matching
checklist property keys against parsed description keys (lines 646-652). -/
def rstripDotsTrim (s : String) : String :=
  pyStrip (String.mk ((s.toList.reverse.dropWhile (fun c => c = Char.ofNat 46)).reverse))

/-- transpose_table (lines 481-483): `list(map(list, zip(*data)))` with an
empty-input guard.  `zip` truncates every column to the length of the
shortest row, and `zip()` of a nonempty list of rows yields
`min(len(row))` tuples, one per column index. -/
def pyZip (rows : List (List String)) : List (List String) :=
  match rows with
  | [] => []
  | r :: rs =>
    let k := rs.foldl (fun m row => min m row.length) r.length
    (List.range k).map (fun i => (r :: rs).map (fun row => row.getD i ""))

def transpose_table (data : List (List String)) : List (List String) :=
  if data.isEmpty then [] else pyZip data

/-- Base table style prepended by create_pdf_table (lines 467-474),
as descriptive tokens. -/
def base_style : List String :=
  ["GRID grey", "VALIGN TOP", "LEFTPADDING 2", "RIGHTPADDING 2",
   "TOPPADDING 2", "BOTTOMPADDING 2"]

/-- create_pdf_table (lines 452-479).  Returns the flowable it would append
to the caller's element list, or `none` when the guard at lines 453-455
rejects the data (empty, or a single row that is itself empty or entirely
blank after stripping).  Each cell is HTML-escaped into a Paragraph
(line 463); the per-cell paragraph styles are presentational and are
abstracted into the retained font size. -/
def create_pdf_table (data_list : List (List String)) (col_widths : Option (List ℚ))
    (table_style_commands : List String) (cell_font_size : Nat) : Option Elem :=
  if data_list = [] ∨
      (data_list.length = 1 ∧
        (data_list.headD [] = [] ∨ (data_list.headD []).all (fun c => pyStrip c = ""))) then
    none
  else
    let styled_data := data_list.map (fun row => row.map htmlEscape)
    if styled_data = [] then none
    else some (Elem.table styled_data col_widths (base_style ++ table_style_commands) cell_font_size)

/-- Style tokens for the first (header) column of a transposed table
(lines 495-496). -/
def default_transposed_header_style : List String :=
  ["BACKGROUND col0 lightgoldenrodyellow", "FONTNAME col0 Helvetica-Bold"]

/-- create_transposed_pdf_table (lines 485-506).  Returns the flowables it
appends (a single table) when it reports success, `none` otherwise: it
gives up when the original header row is missing or entirely blank
(line 489) or when the transposed grid is degenerate (line 493). -/
def create_transposed_pdf_table (original_pdf_data : List (List String))
    (_table_note_name : String) (style_for_transposed_header_row : List String)
    (cell_font_size : Nat) : Option (List Elem) :=
  if original_pdf_data = [] ∨ original_pdf_data.headD [] = [] ∨
      ¬ (original_pdf_data.headD []).any (fun h => pyStrip h ≠ "") then
    none
  else
    let transposed_data := transpose_table original_pdf_data
    if transposed_data = [] ∨ transposed_data.headD [] = [] then none
    else
      let combined_style := default_transposed_header_style ++ style_for_transposed_header_row
      match create_pdf_table transposed_data none combined_style cell_font_size with
      | some t => some [t]
      | none => none

/-- Core of optimize_table_for_display (lines 519-552), after the
zero-column preamble has fixed the headers and column count.  Returns the
`rendered_something` flag together with the flowables appended to the
caller's element list. -/
def optimizeCore (headers : List String) (rows : List (List String))
    (num_orig_cols : Nat) (available_width : ℚ)
    (default_header_style transposed_table_new_header_row_style : List String) :
    Bool × List Elem :=
  let pdf_data_orig := headers :: rows
  if pdf_data_orig.length = 1 ∧
      (pdf_data_orig.headD [] = [] ∨ (pdf_data_orig.headD []).all (fun c => pyStrip c = "")) then
    (false, [])
  else if num_orig_cols ≤ 25 then
    let font_size_normal : Nat :=
      if num_orig_cols > 18 then 6 else if num_orig_cols > 10 then 7 else 8
    let col_w : ℚ := if num_orig_cols > 0 then available_width / num_orig_cols else available_width
    let min_col_w_abs : ℚ := 2/5 * inchQ
    let final_col_widths_calc : List ℚ :=
      if num_orig_cols > 0 then List.replicate num_orig_cols (max min_col_w_abs col_w) else []
    let current_total_width_calc := final_col_widths_calc.sum
    let final_col_widths : Option (List ℚ) :=
      if num_orig_cols > 0 ∧ current_total_width_calc > available_width ∧
          current_total_width_calc > 1/100 then
        some (final_col_widths_calc.map (fun w => w * (available_width / current_total_width_calc)))
      else if num_orig_cols > 0 then some final_col_widths_calc
      else none
    match create_pdf_table pdf_data_orig final_col_widths default_header_style font_size_normal with
    | some t => (true, [t])
    | none => (false, [])
  else
    match create_transposed_pdf_table pdf_data_orig ""
        transposed_table_new_header_row_style 7 with
    | some els => (true, els)
    | none => (false, [])

/-- optimize_table_for_display (lines 508-552).  Returns the
`rendered_something` flag and the flowables appended to `elements_list`. -/
def optimize_table_for_display (_table_name : String) (headers : List String)
    (rows : List (List String)) (available_width : ℚ)
    (default_header_style transposed_table_new_header_row_style : List String) :
    Bool × List Elem :=
  if headers.length = 0 then
    match rows with
    | [] => (false, [])
    | r0 :: _ =>
      if r0 = [] then (false, [])
      else
        optimizeCore (List.replicate r0.length " ") rows r0.length available_width
          default_header_style transposed_table_new_header_row_style
  else
    optimizeCore headers rows headers.length available_width
      default_header_style transposed_table_new_header_row_style

/-- The cell grids of the table flowables in an element list. -/
def renderedGrids (els : List Elem) : List (List (List String)) :=
  els.filterMap (fun e =>
    match e with
    | .table g _ _ _ => some g
    | _ => none)

/-! ### Python-dict association lists

`HIERARCHY_TABLE_COLUMN_MAPPINGS` and the per-table column maps are Python
dicts: assignment to an existing key replaces its value in place, a new
key is appended, and lookups return a missing marker rather than raising.
They are modelled as association lists with those semantics. -/

/-- Python dict lookup `m.get(k)`. -/
def dlookup {β : Type} (m : List (String × β)) (k : String) : Option β :=
  (m.find? (fun p => p.1 = k)).map (fun p => p.2)

/-- Python dict assignment `m[k] = v`: replace the existing entry in place,
else append. -/
def dinsert {β : Type} : List (String × β) → String → β → List (String × β)
  | [], k, v => [(k, v)]
  | p :: m, k, v => if p.1 = k then (k, v) :: m else p :: dinsert m k v

/-! ### Field-mapping loader (lines 229-261)

A schema file is modelled as its parsed content: the `table` elements
found under `protocolVersion` elements, in document order, each with its
optional `name` attribute and its `field` children's optional `key` and
`name` attributes.  A file whose XML fails to parse is skipped by the
loader (lines 260-261) and therefore simply does not appear in the input
list. -/

structure SField where
  key : Option String
  name : Option String
  deriving DecidableEq

structure STable where
  name : Option String
  fields : List SField
  deriving DecidableEq

abbrev SchemaFile := List STable

abbrev ColMap := List (String × List (String × String))

/-- The hardcoded pre-registered table map (lines 232-239). -/
def mediaEquilibrationMap : List (String × String) :=
  [("F_95", "MFSR Name"), ("F_96", "CO2 Incubator ID/ Water Bath ID"),
   ("F_97", "Set Temp oC"), ("F_98", "Displayed Temp oC"),
   ("F_99", "Set CO2(%)"), ("F_100", "Displayed CO2(%)"),
   ("F_101", "Set Relative Humidity (%)"), ("F_102", "Displayed Relative Humidity (%)"),
   ("F_103", "Set Agitation (RPM)"), ("F_104", "Displayed agitation (RPM)"),
   ("F_105", "Volume of Media(mL)"), ("F_106", "Incubation St time"),
   ("F_107", "Incubation End Time"), ("F_108", "Incubation Duration")]

/-- One `field` element (lines 254-259): entries with a truthy `key` and
`name` are assigned into the table's map under tag `"F_" + key`. -/
def processField (m : ColMap) (nm : String) (fld : SField) : ColMap :=
  match fld.key, fld.name with
  | some k, some v =>
    if k ≠ "" ∧ v ≠ "" then
      let cur := (dlookup m nm).getD []
      dinsert m nm (dinsert cur ("F_" ++ k) v)
    else m
  | _, _ => m

/-- One `table` element (lines 249-259): tables with a falsy name are
skipped; a table name not yet present is registered with an empty map
(the dict itself is never replaced when the name is already present);
then every valid field is assigned into that table's map. -/
def processTable (m : ColMap) (tbl : STable) : ColMap :=
  match tbl.name with
  | none => m
  | some nm =>
    if nm = "" then m
    else
      let m1 := if (dlookup m nm).isSome then m else dinsert m nm []
      tbl.fields.foldl (fun acc fld => processField acc nm fld) m1

def processSchemaFile (m : ColMap) (file : SchemaFile) : ColMap :=
  file.foldl processTable m

/-- load_column_mappings_from_schema_files (lines 229-261): a fresh map is
built on every call, pre-registered with the hardcoded table, then every
schema file is folded in. -/
def load_column_mappings_from_schema_files (files : List SchemaFile) : ColMap :=
  files.foldl processSchemaFile
    [("Media Equilibration and Readiness for Vial Thaw", mediaEquilibrationMap)]

/-- Combined lookup: the display name registered for internal tag `k` of
table `t`, with dict-style missing markers at both levels. -/
def fieldLookup (m : ColMap) (t k : String) : Option String :=
  (dlookup m t).bind (fun tm => dlookup tm k)

/-! ### XML object model

The shapes the dispatcher reads from one `object` node (spec section 6:
each object has one `field/@name` plus at most one content payload).
`ET.find` returns the first matching child or `None`; a child that can be
present at most once is therefore an `Option`.  Element text that is
absent and text of an absent element are both `none`. -/

structure PropInstance where
  /-- `propertyInstance/@value`, defaulted to `""` (line 267). -/
  value : String
  /-- The nested `property` child, if present, with its optional `name`
  attribute (lines 268-269). -/
  propertyChild : Option (Option String)
  deriving DecidableEq

structure StyledText where
  /-- Text content of the nested `text` element. -/
  text : Option String
  /-- Text content of the nested `data` element. -/
  data : Option String
  deriving DecidableEq

structure TableSection where
  /-- `tableProperty/property` children's `name` attributes, in order. -/
  props : List (Option String)
  /-- `tableRow` children, each the list of its `tableCell/@value`
  attributes defaulted to `""` (line 327). -/
  rows : List (List String)
  deriving DecidableEq

structure HRow where
  /-- The row's child elements, as (tag, text) pairs in document order. -/
  cells : List (String × Option String)
  deriving DecidableEq

structure HXTable where
  name : Option String
  rows : List HRow
  deriving DecidableEq

structure HierarchyData where
  tables : List HXTable
  deriving DecidableEq

structure DocumentE where
  documentType : Option String
  /-- The element's Base64 text content. -/
  text : Option String
  deriving DecidableEq

structure AddinE where
  /-- `addin/@data` defaulted to `""` (line 815). -/
  data : String
  deriving DecidableEq

structure AncillaryE where
  extension : Option String
  deriving DecidableEq

structure FieldE where
  name : Option String
  deriving DecidableEq

structure Obj where
  field : Option FieldE
  propertyInstances : Option (List PropInstance)
  styledText : Option StyledText
  tableSection : Option TableSection
  hierarchyData : Option HierarchyData
  document : Option DocumentE
  addin : Option AddinE
  ancillaryData : Option AncillaryE
  deriving DecidableEq

/-! ### Primitive extractors -/

/-- extract_metadata_properties (lines 263-272): emit a
(Property, Value) pair for every propertyInstance unless both the heading
and the value are blank. -/
def extract_metadata_properties (l : List PropInstance) : List (String × String) :=
  l.foldl (fun acc pi =>
    let value := pi.value
    let heading := match pi.propertyChild with
      | some nm => nm.getD ""
      | none => "N/A"
    if pyStrip heading ≠ "" ∨ pyStrip value ≠ "" then acc ++ [(heading, value)] else acc) []

/-- Second half of extract_styled_text_content (lines 279-282): fall back
to the nested raw `data` node. -/
def extractDataPart (st : StyledText) : Option String × String :=
  match st.data with
  | some d => if pyStrip d ≠ "" then (some (pyStrip d), "rtf") else (none, "raw")
  | none => (none, "raw")

/-- extract_styled_text_content (lines 274-282): prefer the nested plain
`text` node's stripped text, else the `data` node's, else no content. -/
def extract_styled_text_content (st : StyledText) : Option String × String :=
  match st.text with
  | some t => if pyStrip t ≠ "" then (some (pyStrip t), "text") else extractDataPart st
  | none => extractDataPart st

/-- extract_tablesection_data (lines 312-331). -/
def extract_tablesection_data (ts : TableSection) : List String × List (List String) :=
  let headers := ts.props.enum.map (fun p => p.2.getD ("Col" ++ toString (p.1 + 1)))
  let rows_data := ts.rows.map (fun row_cells =>
    let n0 := if headers.length ≠ 0 then headers.length else row_cells.length
    let num_cols_to_extract :=
      if n0 = 0 ∧ headers = [] then
        match ts.rows.head? with
        | some first_row => first_row.length
        | none => 0
      else n0
    (List.range num_cols_to_extract).map (fun i => row_cells.getD i ""))
  let headers :=
    if headers = [] ∧ rows_data ≠ [] ∧ rows_data.headD [] ≠ [] then
      (List.range (rows_data.headD []).length).map (fun i => "Col" ++ toString (i + 1))
    else headers
  (headers, rows_data)

/-- The distinct child-element tags seen across all rows, in first-seen
order (lines 339-347). -/
def firstSeenTags (rows : List HRow) : List String :=
  rows.foldl (fun acc r =>
    r.cells.foldl (fun acc2 c => if c.1 ∈ acc2 then acc2 else acc2 ++ [c.1]) acc) []

/-- Sort key for the no-rows fallback (line 353):
`int(x.split('_')[1])` when that part is a digit string, else 9999. -/
def keySuffixVal (s : String) : Nat :=
  match (splitOnCharAux (Char.ofNat 95) s.toList).drop 1 with
  | p :: _ => if p ≠ [] ∧ p.all Char.isDigit then digitsToNat p else 9999
  | [] => 9999

structure HExtracted where
  name : String
  headers : List String
  rows : List (List String)
  deriving DecidableEq

/-- extract_hierarchy_data_tables (lines 333-368), given the column map
built by the loader. -/
def extract_hierarchy_data_tables (M : ColMap) (hd : HierarchyData) : List HExtracted :=
  hd.tables.foldl (fun acc tbl =>
    let table_name_xml := tbl.name.getD "Unnamed Hierarchy Table"
    let table_specific_mappings := (dlookup M table_name_xml).getD []
    let internal_tags := firstSeenTags tbl.rows
    let final_internal_header_tags :=
      internal_tags.filter (fun tg => (dlookup table_specific_mappings tg).isSome)
    let final_internal_header_tags :=
      if final_internal_header_tags = [] ∧ tbl.rows = [] ∧ table_specific_mappings ≠ [] then
        (((table_specific_mappings.map (fun p => p.1)).filter
            (fun tg => pyStartsWith tg "F_")).mergeSort
          (fun a b => keySuffixVal a ≤ keySuffixVal b))
      else final_internal_header_tags
    if final_internal_header_tags = [] then acc
    else
      let display_headers :=
        final_internal_header_tags.map (fun tg => (dlookup table_specific_mappings tg).getD "")
      let current_table_rows := tbl.rows.map (fun r =>
        final_internal_header_tags.map (fun tg =>
          match r.cells.find? (fun c => c.1 = tg) with
          | some c =>
            match c.2 with
            | some t => if t ≠ "" then pyStrip t else ""
            | none => ""
          | none => ""))
      if display_headers ≠ [] then
        acc ++ [{ name := table_name_xml, headers := display_headers,
                  rows := current_table_rows }]
      else acc) []

/-! ### Excel multi-table extraction (lines 46-227 and 370-435)

A worksheet cell is `Option String`: `none` for Python `None`, otherwise
the `str()` rendering of the cell value.  The Base64 decode and
`openpyxl.load_workbook` call are the external spreadsheet-extraction
primitive of spec section 6 and are supplied by the environment as
`decodeWorkbook`; a failure there is the `except` branch of lines
424-434. -/

abbrev Cell := Option String

/-- `str(cell if cell is not None else "")`. -/
def strCell (c : Cell) : String := c.getD ""

/-- `[str(cell if cell is not None else "").strip() for cell in row]`. -/
def rowStrVals (row : List Cell) : List String :=
  row.map (fun c => pyStrip (strCell c))

/-- _is_empty_row (lines 102-107). -/
def _is_empty_row (row_str_values : List String) : Bool :=
  row_str_values.all (fun v => v = "")

structure Sheet where
  name : String
  rows : List (List Cell)
  deriving DecidableEq

structure TableData where
  table_title : String
  headers : List String
  rows : List (List String)
  deriving DecidableEq

structure SheetData where
  sheet_name : String
  tables : List TableData
  deriving DecidableEq

/-- The block segmentation of the sheet loop (lines 386-416): non-empty
rows accumulate into the active block; an all-empty row flushes a
non-empty active block; a final non-empty active block is flushed at the
end of the sheet. -/
def segmentAux : List (List Cell) → List (List Cell) → List (List (List Cell))
  | active, [] => if active = [] then [] else [active]
  | active, r :: rest =>
    if _is_empty_row (rowStrVals r) then
      if active = [] then segmentAux [] rest else active :: segmentAux [] rest
    else segmentAux (active ++ [r]) rest

def segmentRows (rows : List (List Cell)) : List (List (List Cell)) :=
  segmentAux [] rows

/-- Header-row search of _process_active_table_block (lines 121-138).
`header_row_idx` is only ever assigned together with `break`, so the
`header_row_idx == -1` guards are true whenever they are evaluated and
the loop selects the first row whose stripped values are not all empty
(for such a row `non_empty_cell_count >= 1` makes the outer condition
hold and `or header_row_idx == -1` makes the inner one hold). -/
def findHeaderRow : Nat → List (List Cell) → Option (Nat × List Cell)
  | _, [] => none
  | i, r :: rest =>
    if _is_empty_row (rowStrVals r) then findHeaderRow (i + 1) rest else some (i, r)

/-- Rightmost column index with stripped content, plus one (the reversed
scans of lines 154-169). -/
def lastContentCol (row : List Cell) : Nat :=
  row.enum.foldl (fun acc p => if pyStrip (strCell p.2) ≠ "" then p.1 + 1 else acc) 0

/-- Leftmost column index with stripped content among the first
`maxCols` cells. -/
def firstContentColIn (row : List Cell) (maxCols : Nat) : Option Nat :=
  (row.take maxCols).findIdx? (fun c => pyStrip (strCell c) ≠ "")

/-- _find_actual_content_start_column (lines 46-76).  The inner loop of
lines 70-73 takes the minimum with every content column of the row but
only breaks early at column 0, which is the same as taking the minimum
with the row's first content column. -/
def _find_actual_content_start_column (header_row_tuple : List Cell)
    (data_row_tuples_block : List (List Cell)) (max_cols_to_check : Nat) : Nat :=
  let m1 :=
    if header_row_tuple ≠ [] then
      match firstContentColIn header_row_tuple max_cols_to_check with
      | some i => i
      | none => max_cols_to_check
    else max_cols_to_check
  let m2 := (data_row_tuples_block.take 5).foldl (fun m row =>
    if m = 0 then m
    else
      match firstContentColIn row max_cols_to_check with
      | some i => min m i
      | none => m) m1
  if m2 < max_cols_to_check then m2 else 0

/-- `"Col1" ... "ColN"` synthetic headers. -/
def colNHeaders (n : Nat) : List String :=
  (List.range n).map (fun j => "Col" ++ toString (j + 1))

/-- `h.startswith("Col") and h[3:].isdigit()` (lines 202, 220). -/
def isColNHeader (h : String) : Bool :=
  pyStartsWith h "Col" && pyIsDigit (h.drop 3)

/-- _process_active_table_block (lines 109-227).  The float comparison
`num_text_like_cells / len(final_headers) > 0.6` of line 208 is modelled
exactly as the rational comparison `5 * num > 3 * len`. -/
def _process_active_table_block (row_block : List (List Cell)) (_sheet_name : String)
    (table_index_in_sheet : Nat) : Option TableData :=
  if row_block = [] then none
  else
    match findHeaderRow 0 row_block with
    | none => none
    | some (header_row_idx, raw_header) =>
      let data_block_start_idx := header_row_idx + 1
      let potential_title :=
        ((row_block.take header_row_idx).reverse.find?
            (fun r => ¬ _is_empty_row (rowStrVals r))).map
          (fun r => String.intercalate " " ((rowStrVals r).filter (fun v => v ≠ "")))
      let table_title := match potential_title with
        | some t => if t ≠ "" then t else "Table " ++ toString (table_index_in_sheet + 1)
        | none => "Table " ++ toString (table_index_in_sheet + 1)
      let max_cols_from_header := lastContentCol raw_header
      let dataRows := row_block.drop data_block_start_idx
      let max_cols_from_data := dataRows.foldl (fun m r => max m (lastContentCol r)) 0
      let overall_max_cols := max max_cols_from_header max_cols_from_data
      if overall_max_cols = 0 then none
      else
        let header_for_trim :=
          if raw_header ≠ [] then raw_header else List.replicate overall_max_cols (none : Cell)
        let actual_content_start_col :=
          _find_actual_content_start_column header_for_trim dataRows overall_max_cols
        if raw_header = [] ∧ overall_max_cols - actual_content_start_col = 0 then none
        else
          let final_headers :=
            if raw_header ≠ [] then
              ((raw_header.drop actual_content_start_col).take
                (overall_max_cols - actual_content_start_col)).map strCell
            else colNHeaders (overall_max_cols - actual_content_start_col)
          let final_data_rows := dataRows.foldl (fun acc r =>
            let vals := ((r.drop actual_content_start_col).take
              (overall_max_cols - actual_content_start_col)).map strCell
            if ¬ _is_empty_row (vals.map pyStrip) then acc ++ [vals] else acc) []
          let promoted : List String × List (List String) :=
            if final_data_rows ≠ [] ∧ final_headers ≠ [] ∧
                final_headers.all isColNHeader then
              match final_data_rows with
              | first :: restRows =>
                if first ≠ [] then
                  let num_text_like_cells :=
                    (first.filter (fun x => pyStrip x ≠ "" ∧
                      ¬ pyIsDigit (removeFirstDot x))).length
                  if final_headers.length > 0 ∧
                      5 * num_text_like_cells > 3 * final_headers.length then
                    if final_headers ≠ first then (first, restRows)
                    else (final_headers, final_data_rows)
                  else (final_headers, final_data_rows)
                else (final_headers, final_data_rows)
              | [] => (final_headers, final_data_rows)
            else (final_headers, final_data_rows)
          let final_headers := promoted.1
          let final_data_rows := promoted.2
          let final_headers :=
            if final_headers ≠ [] ∧ ¬ final_headers.any (fun h => pyStrip h ≠ "") ∧
                final_data_rows ≠ [] then
              match final_data_rows with
              | first :: _ => if first ≠ [] then colNHeaders first.length else final_headers
              | [] => final_headers
            else final_headers
          if final_headers = [] ∧ final_data_rows = [] then none
          else if final_data_rows = [] ∧ final_headers.all isColNHeader then none
          else some { table_title := pyStrip table_title, headers := final_headers,
                      rows := final_data_rows }

/-- The per-sheet table loop of lines 386-416: every flushed block is
processed, and the result is kept (incrementing the default-title
counter) when it has headers or rows. -/
def processSheetRows (sheet_name : String) (rows : List (List Cell)) : List TableData :=
  ((segmentRows rows).foldl (fun (acc : List TableData × Nat) blk =>
    match _process_active_table_block blk sheet_name acc.2 with
    | some table_data =>
      if table_data.headers ≠ [] ∨ table_data.rows ≠ [] then
        (acc.1 ++ [table_data], acc.2 + 1)
      else acc
    | none => acc) ([], 0)).1

/-- The synthetic error container of lines 427-434. -/
def errorSheetContainer (e : String) : SheetData :=
  { sheet_name := "Error Processing Excel File",
    tables := [{ table_title := "Extraction Error", headers := ["Error"],
                 rows := [["Could not process Excel file: " ++ e]] }] }

/-! ### External collaborators -/

/-- The external extraction primitives (spec section 6) together with the
regex-based checklist-text parser (parse_checklist_text_content, lines
284-310), whose line-matching heuristics are not the subject of any
claim and are abstracted as a function from the raw text to the
item-id → description dict it builds. -/
structure Env where
  parseChecklist : String → List (String × String)
  decodeWorkbook : String → Except String (List Sheet)
  /-- extract_word_text_from_base64 (lines 437-450): Base64 decode plus
  python-docx paragraph extraction, including the skip/error message
  strings it returns instead of raising. -/
  decodeWord : String → String

/-- extract_excel_data_from_base64 (lines 370-435): decode the workbook,
skip empty sheets, segment and process each sheet's rows, and keep
sheets that produced at least one table; a decoding failure yields the
single synthetic error container. -/
def extract_excel_data (env : Env) (base64_string : String) : List SheetData :=
  match env.decodeWorkbook base64_string with
  | .error e => [errorSheetContainer e]
  | .ok sheets =>
    sheets.foldl (fun acc s =>
      if s.rows = [] then acc
      else
        let current_sheet_tables := processSheetRows s.name s.rows
        if current_sheet_tables ≠ [] then
          acc ++ [{ sheet_name := s.name, tables := current_sheet_tables }]
        else acc) []

/-! ### Object-kind dispatcher (lines 620-830)

Each content kind is a function from the object to `Option (List Elem)`:
`some els` when the kind produces renderable content (the flowables it
appends to the object buffer), `none` otherwise.  The dispatcher itself
threads the `object_produced_renderable_content` flag and the object
buffer through the six kinds in source order. -/

/-- Per-section checklist context gathered by the pre-scan
(lines 603-619). -/
structure SectionCtx where
  raw : Option String
  descs : List (String × String)

/-- The fixed field-name set of line 629. -/
def normalized_property_table_field_identifiers : List String :=
  ["metadata", "checklist", "check list", "mixing and stirring-filtration", "sop"]

/-- `available_width_l` (line 628): landscape letter width minus one
inch. -/
def available_width_l : ℚ := 792 - 72

/-- Option value that is `some` only when the Python string it models is
truthy (`if not description:` treats both `None` and `""` as missing). -/
def truthyOpt (o : Option String) : Option String :=
  o.bind (fun s => if s = "" then none else some s)

/-- The three-step description lookup of lines 644-655: exact key match,
then trailing-dot-normalised match, then fuzzy prefix match with length
difference below 4. -/
def findChecklistDescription (descs : List (String × String)) (prop_key_original : String) :
    Option String :=
  match truthyOpt (dlookup descs prop_key_original) with
  | some d => some d
  | none =>
    let prop_key_norm_pi := rstripDotsTrim prop_key_original
    match truthyOpt ((descs.find? (fun kv => rstripDotsTrim kv.1 = prop_key_norm_pi)).map
        (fun kv => kv.2)) with
    | some d => some d
    | none =>
      truthyOpt ((descs.find? (fun kv =>
        let text_key_norm := rstripDotsTrim kv.1
        let prop_key_norm := rstripDotsTrim prop_key_original
        (pyStartsWith prop_key_norm text_key_norm ∨ pyStartsWith text_key_norm prop_key_norm) ∧
          Nat.dist prop_key_norm.length text_key_norm.length < 4)).map (fun kv => kv.2))

/-- The status-value mapping of the enriched checklist branch
(lines 657-660). -/
def formatChecklistValueEnriched (item_value : String) : String :=
  if item_value = "false" then "Not Completed"
  else if item_value = "true" then "Completed"
  else if item_value = "" then " "
  else item_value

/-- The status-value mapping of the plain checklist branch
(lines 667-670). -/
def formatChecklistValuePlain (item_value : String) : String :=
  if item_value = "false" then "Not Completed"
  else if item_value = "true" then "Completed"
  else if item_value = "" then " "
  else item_value

/-- The enriched checklist rows of lines 641-662. -/
def enrichedChecklistRows (descs : List (String × String))
    (metadata : List (String × String)) : List (List String) :=
  metadata.map (fun item =>
    let prop_key_original := item.1
    let formatted_property := match findChecklistDescription descs prop_key_original with
      | some d => prop_key_original ++ ": " ++ d
      | none => prop_key_original
    [formatted_property, formatChecklistValueEnriched item.2])

/-- The plain checklist rows of lines 663-672. -/
def plainChecklistRows (metadata : List (String × String)) : List (List String) :=
  metadata.map (fun item => [item.1, formatChecklistValuePlain item.2])

def styleDarkSlate : List String :=
  ["BACKGROUND header darkslateblue", "TEXTCOLOR header whitesmoke"]

def styleCadet : List String :=
  ["BACKGROUND header cadetblue", "TEXTCOLOR header whitesmoke"]

def styleLightGrey : List String := ["BACKGROUND header lightgrey"]

def stylePaleGreen : List String :=
  ["BACKGROUND header palegreen", "TEXTCOLOR header black"]

/-- Content kind (1): the property-instances table (lines 631-680). -/
def branchPropertyTable (ctx : SectionCtx) (nfn fnd : String) (obj : Obj) :
    Option (List Elem) :=
  match obj.propertyInstances with
  | none => none
  | some l =>
    if l ≠ [] ∧ nfn ∈ normalized_property_table_field_identifiers then
      let metadata_list_of_dicts := extract_metadata_properties l
      let is_checklist_type_field := nfn = "checklist" ∨ nfn = "check list"
      let headers_rows : List String × List (List String) :=
        if is_checklist_type_field ∧ metadata_list_of_dicts ≠ [] then
          (["Checklist Item", "Status"],
            if ctx.descs ≠ [] then enrichedChecklistRows ctx.descs metadata_list_of_dicts
            else plainChecklistRows metadata_list_of_dicts)
        else
          (["Property", "Value"],
            metadata_list_of_dicts.map (fun item => [item.1, item.2]))
      let res := optimize_table_for_display fnd headers_rows.1 headers_rows.2
        available_width_l styleDarkSlate styleDarkSlate
      if res.1 then some res.2 else none
    else none

/-- Content kind (2): styled text (lines 682-697).  The styled text is
skipped when it is the very checklist text already consumed by the
pre-scan for this section. -/
def branchStyledText (ctx : SectionCtx) (obj : Obj) : Option (List Elem) :=
  match obj.styledText with
  | none => none
  | some st =>
    match extract_styled_text_content st with
    | (some content, ctype) =>
      if ctype = "text" then
        let should_skip : Bool := match ctx.raw with
          | some r => decide (r = content) && decide (ctx.descs ≠ [])
          | none => false
        if should_skip then none
        else
          let display_content := truncAt 2500 content
          if pyContainsChar content (Char.ofNat 10) then
            some [Elem.pre .code (htmlEscape display_content)]
          else some [Elem.para .body (htmlEscape display_content)]
      else none
    | (none, _) => none

/-- Content kind (3): the generic table section (lines 699-707). -/
def branchTableSection (fnd : String) (obj : Obj) : Option (List Elem) :=
  match obj.tableSection with
  | none => none
  | some ts =>
    let hr := extract_tablesection_data ts
    let res := optimize_table_for_display fnd hr.1 hr.2 available_width_l
      styleCadet styleCadet
    if res.1 then some res.2 else none

/-- Content kind (4): schema-mapped hierarchy tables (lines 709-728). -/
def branchHierarchy (M : ColMap) (obj : Obj) : Option (List Elem) :=
  match obj.hierarchyData with
  | none => none
  | some hd =>
    let hierarchy_tables := extract_hierarchy_data_tables M hd
    let res := hierarchy_tables.foldl (fun (acc : Bool × List Elem) h_table =>
      let r := optimize_table_for_display h_table.name h_table.headers h_table.rows
        available_width_l styleLightGrey styleLightGrey
      if r.1 then
        (true, acc.2 ++ [Elem.para .h4_table_title ("Data Table: " ++ htmlEscape h_table.name)]
          ++ r.2)
      else acc) (false, [])
    if res.1 then some res.2 else none

/-- The Word half of content kind (5) (lines 736-747). -/
def renderWordDoc (env : Env) (fnd : String) (b64 : String) : Option (List Elem) :=
  let extracted_word_text := env.decodeWord b64
  if extracted_word_text ≠ "" ∧ pyStrip extracted_word_text ≠ "" ∧
      ¬ pyStartsWith (pyLower extracted_word_text) "skipped word document:" ∧
      ¬ pyStartsWith (pyLower extracted_word_text) "error extracting text" then
    some [Elem.para .h4_table_title ("Content from Word Document (" ++ htmlEscape fnd ++ "):"),
          Elem.pre .code (htmlEscape (truncAt 3000 extracted_word_text))]
  else if extracted_word_text ≠ "" then some [Elem.para .note extracted_word_text]
  else none

/-- The Excel half of content kind (5) (lines 749-811).  The inner
error-report branch of lines 761-768 requires `tables_in_sheet` to be
both empty and non-empty and is unreachable; sheets with no tables are
simply skipped.  The trailing spacer of lines 805-806 tests the loop
variable left over from the last sheet container. -/
def renderExcelDoc (env : Env) (_fnd : String) (b64 : String) : Option (List Elem) :=
  let excel_sheets_data_list := extract_excel_data env b64
  let res := excel_sheets_data_list.foldl (fun (acc : Bool × List Elem) sd =>
    if sd.tables = [] then acc
    else
      let withHeading := acc.2 ++
        [Elem.para .h4_table_title
          ("Data from Sheet: \x27" ++ htmlEscape sd.sheet_name ++ "\x27"),
         Elem.spacer (18/5)]
      sd.tables.foldl (fun (acc2 : Bool × List Elem) tb =>
        if tb.headers = [] ∧ tb.rows = [] then acc2
        else
          let acc3 :=
            if tb.table_title ≠ "" ∧ ¬ pyStartsWith (pyLower tb.table_title) "table " then
              (acc2.1, acc2.2 ++ [Elem.para .body_small (htmlEscape tb.table_title ++ ":")])
            else acc2
          let r := optimize_table_for_display tb.table_title tb.headers tb.rows
            available_width_l stylePaleGreen stylePaleGreen
          if r.1 then (true, acc3.2 ++ r.2 ++ [Elem.spacer (36/5)]) else acc3)
        (acc.1, withHeading)) (false, [])
  let elems := match excel_sheets_data_list.getLast? with
    | some sd => if res.1 ∧ sd.tables ≠ [] then res.2 ++ [Elem.spacer (54/5)] else res.2
    | none => res.2
  if res.1 then some elems else none

/-- Content kind (5): the embedded document (lines 730-811), branching on
the `documentType` discriminator with a truthy Base64 payload. -/
def branchDocument (env : Env) (fnd : String) (obj : Obj) : Option (List Elem) :=
  match obj.document with
  | none => none
  | some d =>
    match d.text with
    | none => none
    | some b64_content =>
      if pyStrip b64_content = "" then none
      else if d.documentType = some "1" then renderWordDoc env fnd (pyStrip b64_content)
      else if d.documentType = some "2" then renderExcelDoc env fnd (pyStrip b64_content)
      else none

/-- Content kind (6): the free-form addin blob (lines 813-819). -/
def branchAddin (obj : Obj) : Option (List Elem) :=
  match obj.addin with
  | none => none
  | some a =>
    if a.data ≠ "" ∧ pyStrip a.data ≠ "" then
      some [Elem.pre .code (htmlEscape (truncAt 2000 a.data))]
    else none

/-- The ancillary-data fallback of lines 821-830, reached only when no
content kind produced content. -/
def fallbackAncillary (obj : Obj) (fnd : String) : Bool × List Elem :=
  match obj.ancillaryData with
  | some anc =>
    match anc.extension with
    | some e =>
      if e ≠ "" then
        (true, [Elem.para .body_small
          ("Note: Ancillary data found with extension \x27" ++ htmlEscape e ++
           "\x27 for field \x27" ++ fnd ++ "\x27. Specific rendering not implemented.")])
      else (false, [])
    | none => (false, [])
  | none => (false, [])

/-- The six content kinds in dispatch priority order, each applied to the
object. -/
def contentKinds (M : ColMap) (env : Env) (ctx : SectionCtx) (nfn fnd : String)
    (obj : Obj) : List (Option (List Elem)) :=
  [branchPropertyTable ctx nfn fnd obj,
   branchStyledText ctx obj,
   branchTableSection fnd obj,
   branchHierarchy M obj,
   branchDocument env fnd obj,
   branchAddin obj]

/-- First successful kind, if any. -/
def firstSuccess : List (Option (List Elem)) → Option (List Elem)
  | [] => none
  | o :: os =>
    match o with
    | some x => some x
    | none => firstSuccess os

/-- The per-object dispatch of lines 620-830: the six content kinds are
tried in order, each guarded by `not object_produced_renderable_content`,
followed by the ancillary fallback.  Returns the produced flag and the
object buffer. -/
def dispatchObject (M : ColMap) (env : Env) (ctx : SectionCtx) (obj_idx : Nat)
    (obj : Obj) : Bool × List Elem :=
  match obj.field with
  | none => (false, [])
  | some field_elem =>
    let original_field_name_attr :=
      field_elem.name.getD ("Unnamed Field " ++ toString (obj_idx + 1))
    let normalized_field_name := pyStrip (pyLower original_field_name_attr)
    let field_name_display := htmlEscape original_field_name_attr
    let st1 : Bool × List Elem :=
      match branchPropertyTable ctx normalized_field_name field_name_display obj with
      | some els => (true, els)
      | none => (false, [])
    let st2 : Bool × List Elem :=
      if st1.1 then st1
      else
        match branchStyledText ctx obj with
        | some els => (true, st1.2 ++ els)
        | none => st1
    let st3 : Bool × List Elem :=
      if st2.1 then st2
      else
        match branchTableSection field_name_display obj with
        | some els => (true, st2.2 ++ els)
        | none => st2
    let st4 : Bool × List Elem :=
      if st3.1 then st3
      else
        match branchHierarchy M obj with
        | some els => (true, st3.2 ++ els)
        | none => st3
    let st5 : Bool × List Elem :=
      if st4.1 then st4
      else
        match branchDocument env field_name_display obj with
        | some els => (true, st4.2 ++ els)
        | none => st4
    let st6 : Bool × List Elem :=
      if st5.1 then st5
      else
        match branchAddin obj with
        | some els => (true, st5.2 ++ els)
        | none => st5
    if st6.1 then st6
    else
      let fb := fallbackAncillary obj field_name_display
      (fb.1, st6.2 ++ fb.2)

/-! ### Section/document assembler (lines 554-865) -/

structure Sect where
  name : Option String
  objects : List Obj

structure Root where
  name : Option String
  /-- The `collectionType` child, if present, with its optional `name`
  attribute. -/
  collectionType : Option (Option String)
  sectionSetView : Option (List Sect)

/-- The per-section pre-scan (lines 603-619): the first object whose
normalized field name is a checklist identifier and whose styled text
yields plain-text content sets the raw checklist text and its parsed
description map; all other objects are passed over. -/
def prescanChecklist (env : Env) : List Obj → SectionCtx
  | [] => { raw := none, descs := [] }
  | o :: rest =>
    match o.field with
    | none => prescanChecklist env rest
    | some field_elem_prescan =>
      match field_elem_prescan.name with
      | none => prescanChecklist env rest
      | some nm0 =>
        if nm0 = "" then prescanChecklist env rest
        else
          let normalized := pyStrip (pyLower nm0)
          if normalized = "checklist" ∨ normalized = "check list" then
            match o.styledText with
            | some st =>
              match extract_styled_text_content st with
              | (some content_prescan, ctype) =>
                if ctype = "text" then
                  { raw := some content_prescan, descs := env.parseChecklist content_prescan }
                else prescanChecklist env rest
              | (none, _) => prescanChecklist env rest
            | none => prescanChecklist env rest
          else prescanChecklist env rest

/-- One object's contribution to the section buffer (lines 620-837):
dispatch, then — when content was produced — the optional field heading,
the object buffer, and a trailing spacer. -/
def objectContribution (M : ColMap) (env : Env) (ctx : SectionCtx) (obj_idx : Nat)
    (obj : Obj) : Bool × List Elem :=
  match obj.field with
  | none => (false, [])
  | some field_elem =>
    let original_field_name_attr :=
      field_elem.name.getD ("Unnamed Field " ++ toString (obj_idx + 1))
    let field_name_display := htmlEscape original_field_name_attr
    let r := dispatchObject M env ctx obj_idx obj
    if r.1 then
      (true,
        (if field_name_display ≠ "" ∧
            field_name_display ≠ ("Unnamed Field " ++ toString (obj_idx + 1)) ∧
            r.2 ≠ [] then
          [Elem.para .h3 field_name_display]
        else []) ++ r.2 ++ [Elem.spacer (18/5)])
    else (false, [])

/-- The object loop of one section (lines 620-837): accumulate the
contributions and whether any object produced content. -/
def processObjects (M : ColMap) (env : Env) (ctx : SectionCtx) (objs : List Obj) :
    Bool × List Elem :=
  objs.enum.foldl (fun (acc : Bool × List Elem) p =>
    let r := objectContribution M env ctx p.1 p.2
    if r.1 then (true, acc.2 ++ r.2) else acc) (false, [])

/-- The section loop (lines 599-843): a section contributes its heading
and buffer only when at least one of its objects produced content, with
a page break after every contributing section except the last section of
the document. -/
def processSections (M : ColMap) (env : Env) (all_sections : List Sect) : List Elem :=
  all_sections.enum.foldl (fun acc p =>
    let section_idx := p.1
    let sec_name := htmlEscape (p.2.name.getD ("Section " ++ toString (section_idx + 1)))
    let ctx := prescanChecklist env p.2.objects
    let r := processObjects M env ctx p.2.objects
    if r.1 then
      acc ++ [Elem.para .h2 sec_name] ++ r.2 ++
        (if section_idx < all_sections.length - 1 then [Elem.pageBreak] else [])
    else acc) []

/-- The final fixup of lines 845-849: a degenerate element list (title
and spacer only, with no sections to show) is replaced by the global
no-content notice; otherwise a trailing page break is dropped. -/
def finalAdjust (section_set_view : Option (List Sect)) (els : List Elem) : List Elem :=
  if els = [] ∨
      (els.length = 2 ∧ isParagraphE (els.getD 0 Elem.pageBreak) ∧
        isSpacerE (els.getD 1 Elem.pageBreak) ∧
        (section_set_view.isNone ∨ (section_set_view.map List.isEmpty).getD false)) then
    [Elem.para .body "No displayable content found in the XML after processing."]
  else if (match els.getLast? with
    | some e => isPageBreakE e
    | none => false) then
    els.dropLast
  else els

/-- The element-assembly of process_xml_to_pdf (lines 554-853) for an XML
document that parsed: title heading, optional collection-type subtitle,
spacer, then either the missing-section notice or the rendered sections,
with the final fixup applied before the document build. -/
def processRoot (files : List SchemaFile) (env : Env) (root : Root) : List Elem :=
  let M := load_column_mappings_from_schema_files files
  let els := [Elem.para .h1 ("Report: " ++ htmlEscape (root.name.getD "N/A Collection"))]
  let els := match root.collectionType with
    | some (some s) =>
      if s ≠ "" then els ++ [Elem.para .h2 ("Type: " ++ htmlEscape s)] else els
    | _ => els
  let els := els ++ [Elem.spacer (36/5)]
  match root.sectionSetView with
  | none =>
    let els :=
      if els = [] ∨ els.length ≤ 2 then
        els ++ [Elem.para .body "No \x27sectionSetView\x27 (main content) found in the XML."]
      else els
    finalAdjust none els
  | some all_sections =>
    let els := els ++ processSections M env all_sections
    finalAdjust (some all_sections) els

/-- A trivial environment for evaluating the assembler on documents whose
claims do not involve embedded binaries or checklist text. -/
def env0 : Env :=
  { parseChecklist := fun _ => [],
    decodeWorkbook := fun _ => Except.error "not decodable",
    decodeWord := fun _ => "" }

/-! ## Helper lemmas -/

theorem foldl_min_len_const {n : Nat} (rs : List (List String))
    (h : ∀ r ∈ rs, r.length = n) :
    rs.foldl (fun m row => min m row.length) n = n := by
  induction rs with
  | nil => rfl
  | cons r rs ih =>
    simp only [List.foldl_cons]
    rw [h r (by simp), min_self]
    exact ih (fun r hr => h r (by simp [hr]))

/-- On a nonempty grid whose rows all have length `n`, `pyZip` produces
one row per column index below `n`. -/
theorem pyZip_of_rect (g : List (List String)) (n : Nat) (hg : g ≠ [])
    (h : ∀ r ∈ g, r.length = n) :
    pyZip g = (List.range n).map (fun i => g.map (fun row => row.getD i "")) := by
  match g with
  | [] => exact absurd rfl hg
  | r :: rs =>
    show (List.range (rs.foldl (fun m row => min m row.length) r.length)).map _ = _
    have hk : rs.foldl (fun m row => min m row.length) r.length = n := by
      rw [h r (by simp)]
      exact foldl_min_len_const rs (fun row hr => h row (by simp [hr]))
    rw [hk]

theorem getD_map_of_lt {α β : Type} (f : α → β) (l : List α) (j : Nat)
    (hj : j < l.length) (d : β) :
    (l.map f).getD j d = f (l.get ⟨j, hj⟩) := by
  rw [List.getD_eq_getElem?_getD, List.getElem?_map,
    List.getElem?_eq_getElem hj]
  rfl

theorem range_map_getD {α : Type} (l : List α) (d : α) :
    (List.range l.length).map (fun i => l.getD i d) = l := by
  induction l with
  | nil => rfl
  | cons a t ih =>
    rw [List.length_cons, List.range_succ_eq_map, List.map_cons, List.map_map]
    have hcomp : ((fun i => (a :: t).getD i d) ∘ Nat.succ) = (fun i => t.getD i d) := by
      funext i
      simp [List.getD_cons_succ]
    rw [hcomp, ih]
    simp [List.getD_cons_zero]

theorem length_pyZip_of_rect (g : List (List String)) (n : Nat) (hg : g ≠ [])
    (h : ∀ r ∈ g, r.length = n) : (pyZip g).length = n := by
  rw [pyZip_of_rect g n hg h, List.length_map, List.length_range]

/-- Double transposition restores a rectangular grid with at least one
row and at least one column. -/
theorem transpose_transpose_of_rect (g : List (List String)) (n : Nat)
    (hg : g ≠ []) (hn : 0 < n) (h : ∀ r ∈ g, r.length = n) :
    transpose_table (transpose_table g) = g := by
  have ht1 : transpose_table g = pyZip g := by
    unfold transpose_table
    simp [hg]
  have hzip : pyZip g = (List.range n).map (fun i => g.map (fun row => row.getD i "")) :=
    pyZip_of_rect g n hg h
  have htne : pyZip g ≠ [] := by
    intro hc
    have := length_pyZip_of_rect g n hg h
    rw [hc] at this
    simp at this
    omega
  have htrect : ∀ r ∈ pyZip g, r.length = g.length := by
    intro r hr
    rw [hzip] at hr
    rcases List.mem_map.mp hr with ⟨i, _, hri⟩
    rw [← hri, List.length_map]
  have ht2 : transpose_table (pyZip g) = pyZip (pyZip g) := by
    unfold transpose_table
    simp [htne]
  rw [ht1, ht2, pyZip_of_rect (pyZip g) g.length htne htrect]
  apply List.ext_getElem
  · rw [List.length_map, List.length_range]
  · intro j hj1 hj2
    have hjr : j < (List.range g.length).length := by
      rw [List.length_range]
      exact hj2
    rw [List.getElem_map, List.getElem_range]
    rw [hzip, List.map_map]
    have hmapeq :
        (List.range n).map ((fun row => row.getD j "") ∘ (fun i => g.map (fun row => row.getD i ""))) =
        (List.range n).map (fun i => (g.get ⟨j, hj2⟩).getD i "") := by
      apply List.map_congr_left
      intro i _
      show (g.map (fun row => row.getD i "")).getD j "" = _
      rw [getD_map_of_lt (fun row => row.getD i "") g j hj2]
    rw [hmapeq]
    have hlen : (g.get ⟨j, hj2⟩).length = n := h _ (g.get_mem j hj2)
    rw [← hlen, range_map_getD]
    rfl

/-- create_pdf_table succeeds, with the escaped grid, whenever its
guard does not fire. -/
theorem create_pdf_table_renders (data : List (List String)) (cw : Option (List ℚ))
    (sc : List String) (fs : Nat) (h1 : data ≠ [])
    (h2 : ¬ (data.length = 1 ∧
      (data.headD [] = [] ∨ (data.headD []).all (fun c => pyStrip c = "")))) :
    create_pdf_table data cw sc fs =
      some (Elem.table (data.map (fun row => row.map htmlEscape)) cw
        (base_style ++ sc) fs) := by
  simp only [create_pdf_table]
  rw [if_neg (by
    rintro (hc | hc)
    · exact h1 hc
    · exact h2 hc)]
  rw [if_neg (by simp [h1])]

/-- create_transposed_pdf_table succeeds on a rectangular grid with a
not-entirely-blank header row and more than one column, emitting the
escaped transposed grid. -/
theorem create_transposed_renders (headers : List String) (rows : List (List String))
    (nm : String) (sc : List String) (fs : Nat)
    (hrect : ∀ r ∈ rows, r.length = headers.length)
    (hnb : headers.any (fun h => pyStrip h ≠ "") = true)
    (hgt : 1 < headers.length) :
    create_transposed_pdf_table (headers :: rows) nm sc fs =
      some [Elem.table
        ((transpose_table (headers :: rows)).map (fun row => row.map htmlEscape))
        none (base_style ++ (default_transposed_header_style ++ sc)) fs] := by
  have hne : headers ≠ [] := by
    intro hc
    rw [hc] at hnb
    simp at hnb
  have hrectg : ∀ r ∈ headers :: rows, r.length = headers.length := by
    intro r hr
    rcases List.mem_cons.mp hr with h | h
    · rw [h]
    · exact hrect r h
  have hzip : pyZip (headers :: rows) =
      (List.range headers.length).map
        (fun i => (headers :: rows).map (fun row => row.getD i "")) :=
    pyZip_of_rect _ headers.length (by simp) hrectg
  have ht : transpose_table (headers :: rows) = pyZip (headers :: rows) := by
    unfold transpose_table
    simp
  have htlen : (transpose_table (headers :: rows)).length = headers.length := by
    rw [ht, hzip, List.length_map, List.length_range]
  have htne : transpose_table (headers :: rows) ≠ [] := by
    intro hc
    rw [hc] at htlen
    simp at htlen
    omega
  have hthead : (transpose_table (headers :: rows)).headD [] ≠ [] := by
    rw [ht, hzip]
    have hr : List.range headers.length =
        0 :: (List.range (headers.length - 1)).map Nat.succ := by
      have : headers.length = (headers.length - 1) + 1 := by omega
      rw [this, List.range_succ_eq_map]
      simp
    rw [hr]
    simp
  simp only [create_transposed_pdf_table]
  rw [if_neg (by
    rintro (hc | hc | hc)
    · exact (by simp : (headers :: rows) ≠ []) hc
    · exact hne (by simpa using hc)
    · exact hc (by simpa using hnb))]
  rw [if_neg (by
    rintro (hc | hc)
    · exact htne hc
    · exact hthead hc)]
  rw [create_pdf_table_renders _ _ _ _ htne (by
    rintro ⟨hl, -⟩
    rw [htlen] at hl
    omega)]

/-! ## Claims -/

/-- C6 (counterexample): the claim quantifies over every rectangular grid
built from headers H and rows R, but for the zero-column grid built from
H = [] and R = [] (the single empty header row `[[]]`), transpose_table
yields `[]` and transposing again yields `[]`, not the original grid, so
transposition is not involutive on all rectangular grids. -/
theorem c6_transpose_involution_cex :
    transpose_table (transpose_table [([] : List String)]) ≠ [([] : List String)] := by
  decide

/-- C6 (amended): transposition is involutive on every rectangular grid
built from headers H and rows R that has at least one column: if H is
nonempty and every row of R has exactly `H.length` cells, then
transposing `H :: R` twice yields `H :: R` again. -/
theorem c6_transpose_involution (H : List String) (R : List (List String))
    (hH : H ≠ []) (hrect : ∀ r ∈ R, r.length = H.length) :
    transpose_table (transpose_table (H :: R)) = H :: R := by
  apply transpose_transpose_of_rect (H :: R) H.length (by simp)
    (List.length_pos.mpr hH)
  intro r hr
  rcases List.mem_cons.mp hr with h | h
  · rw [h]
  · exact hrect r h

/-- C6 (witness): the amended involution evaluated on a concrete
two-column grid. -/
theorem c6_transpose_involution_witness :
    transpose_table (transpose_table (["a", "b"] :: [["c", "d"]])) =
      ["a", "b"] :: [["c", "d"]] :=
  c6_transpose_involution ["a", "b"] [["c", "d"]] (by decide) (by decide)

/-- C7 (counterexample): the claim says a table whose cells are all blank
is never rendered "regardless of how many blank rows it has", but the
optimizer only rejects the degenerate single-row case: for headers
`[""]` with one blank data row `[""]`, every cell is blank after
stripping, yet the optimizer reports content and emits a table
flowable. -/
theorem c7_blank_table_cex :
    ([""] : List String).all (fun c => pyStrip c = "") = true ∧
    ([[""]] : List (List String)).all (fun r => r.all (fun c => pyStrip c = "")) = true ∧
    (optimize_table_for_display "T" [""] [[""]] 720 [] []).1 = true ∧
    (optimize_table_for_display "T" [""] [[""]] 720 [] []).2 ≠ [] := by
  decide

/-- C7 (amended): a table whose header cells are all blank after
stripping and which has no data rows is considered empty: the optimizer
reports no content and emits no flowable.  (With at least one data row —
even an entirely blank one — and at most 25 columns the optimizer does
render a blank grid, so the restriction to zero data rows is necessary.) -/
theorem c7_blank_table_not_rendered (table_name : String) (headers : List String)
    (w : ℚ) (s1 s2 : List String)
    (hblank : headers.all (fun c => pyStrip c = "") = true) :
    optimize_table_for_display table_name headers [] w s1 s2 = (false, []) := by
  match headers with
  | [] => rfl
  | h :: t =>
    simp [optimize_table_for_display, optimizeCore, hblank]

/-- C7 (witness): the amended emptiness rule evaluated on a concrete
two-column all-blank header row. -/
theorem c7_blank_table_not_rendered_witness :
    optimize_table_for_display "T" ["", " "] [] 720 [] [] = (false, []) :=
  c7_blank_table_not_rendered "T" ["", " "] 720 [] [] (by decide)

/-- The layout cutover on tables whose header row has a non-blank cell:
with at most 25 columns the optimizer emits exactly the row-major grid,
with more than 25 columns exactly the transposed grid.  Shared by the
C1 statements. -/
theorem optimize_layout_nonblank (table_name : String) (headers : List String)
    (rows : List (List String)) (w : ℚ) (s1 s2 : List String)
    (hrect : ∀ r ∈ rows, r.length = headers.length)
    (hnb : headers.any (fun h => pyStrip h ≠ "") = true) :
    (headers.length ≤ 25 →
      renderedGrids (optimize_table_for_display table_name headers rows w s1 s2).2 =
        [(headers :: rows).map (fun row => row.map htmlEscape)]) ∧
    (25 < headers.length →
      renderedGrids (optimize_table_for_display table_name headers rows w s1 s2).2 =
        [(transpose_table (headers :: rows)).map (fun row => row.map htmlEscape)]) := by
  have hne : headers ≠ [] := by
    intro hc
    rw [hc] at hnb
    simp at hnb
  have hnotall : ¬ ((headers :: rows).headD []).all (fun c => pyStrip c = "") = true := by
    simp only [List.headD_cons]
    intro hall
    rcases List.any_eq_true.mp hnb with ⟨x, hx, hxne⟩
    have hxall := List.all_eq_true.mp hall x hx
    simp at hxall hxne
    exact hxne hxall
  have hguard : ¬ ((headers :: rows).length = 1 ∧
      ((headers :: rows).headD [] = [] ∨
        ((headers :: rows).headD []).all (fun c => pyStrip c = ""))) := by
    rintro ⟨-, hc | hc⟩
    · exact hne (by simpa using hc)
    · exact hnotall hc
  have hopt : optimize_table_for_display table_name headers rows w s1 s2 =
      optimizeCore headers rows headers.length w s1 s2 := by
    unfold optimize_table_for_display
    rw [if_neg (by simp [hne])]
  constructor
  · intro hle
    rw [hopt]
    simp only [optimizeCore]
    rw [if_neg hguard, if_pos hle,
      create_pdf_table_renders (headers :: rows) _ _ _ (by simp) hguard]
    simp [renderedGrids]
  · intro hgt
    rw [hopt]
    simp only [optimizeCore]
    rw [if_neg hguard, if_neg (by omega),
      create_transposed_renders headers rows "" s2 7 hrect hnb (by omega)]
    simp [renderedGrids]

/-- C1 (counterexample): the claim says that with more than 25 columns
the optimizer always renders the transposed layout, but
create_transposed_pdf_table gives up when the original header row is
entirely blank (line 489): a 26-column table with all-blank headers and
a non-blank data row — not empty by the spec's emptiness rule — renders
nothing at all. -/
theorem c1_layout_cutover_cex :
    25 < (List.replicate 26 "").length ∧
    (∃ r ∈ [List.replicate 26 "x"], ∃ c ∈ r, pyStrip c ≠ "") ∧
    optimize_table_for_display "T" (List.replicate 26 "")
      [List.replicate 26 "x"] 720 [] [] = (false, []) := by
  decide

/-- C1 (amended): the 25-column cutover, for every table whose rows have
the header row's length: with at most 25 columns the optimizer never
renders the transposed layout — it emits exactly the row-major grid
(header row first), except that a headerless table or a lone entirely
blank header row emits nothing; with more than 25 columns it never
renders the normal layout — when the header row has a non-blank cell it
emits exactly the transposed grid (columns become rows, the original
header row becoming the first value column), and when the header row is
entirely blank it emits nothing. -/
theorem c1_layout_cutover_cases (table_name : String) (headers : List String)
    (rows : List (List String)) (w : ℚ) (s1 s2 : List String)
    (hrect : ∀ r ∈ rows, r.length = headers.length) :
    (headers.length ≤ 25 →
      renderedGrids (optimize_table_for_display table_name headers rows w s1 s2).2 =
        (if headers = [] ∨ (rows = [] ∧ headers.all (fun c => pyStrip c = "")) then []
         else [(headers :: rows).map (fun row => row.map htmlEscape)])) ∧
    (25 < headers.length →
      renderedGrids (optimize_table_for_display table_name headers rows w s1 s2).2 =
        (if headers.all (fun c => pyStrip c = "") then []
         else [(transpose_table (headers :: rows)).map (fun row => row.map htmlEscape)])) := by
  by_cases hne : headers = []
  · subst hne
    constructor
    · intro _
      rw [if_pos (Or.inl rfl)]
      cases hrw : rows with
      | nil => rfl
      | cons r0 rest =>
        have hr0 : r0 = [] := by
          have := hrect r0 (by rw [hrw]; exact List.mem_cons_self r0 rest)
          simpa using this
        subst hr0
        rfl
    · intro hgt
      simp at hgt
  · obtain ⟨h0, t0, hht⟩ := List.exists_cons_of_ne_nil hne
    by_cases hb : headers.all (fun c => pyStrip c = "") = true
    · -- entirely blank header row
      constructor
      · intro hle
        cases hrw : rows with
        | nil =>
          rw [if_pos (Or.inr ⟨rfl, hb⟩)]
          subst hht
          simp [optimize_table_for_display, optimizeCore, hb, renderedGrids]
        | cons r0 rest =>
          rw [if_neg (by
            rintro (hc | ⟨hc, -⟩)
            · exact hne hc
            · simp at hc)]
          have hguard2 : ¬ ((headers :: r0 :: rest).length = 1 ∧
              ((headers :: r0 :: rest).headD [] = [] ∨
                ((headers :: r0 :: rest).headD []).all (fun c => pyStrip c = ""))) := by
            rintro ⟨hl, -⟩
            simp at hl
          have hopt : optimize_table_for_display table_name headers (r0 :: rest) w s1 s2 =
              optimizeCore headers (r0 :: rest) headers.length w s1 s2 := by
            unfold optimize_table_for_display
            rw [if_neg (by simp [hne])]
          rw [hopt]
          simp only [optimizeCore]
          rw [if_neg hguard2, if_pos hle,
            create_pdf_table_renders (headers :: r0 :: rest) _ _ _ (by simp) hguard2]
          simp [renderedGrids]
      · intro hgt
        rw [if_pos hb]
        cases hrw : rows with
        | nil =>
          subst hht
          simp [optimize_table_for_display, optimizeCore, hb, renderedGrids]
        | cons r0 rest =>
          have hguard2 : ¬ ((headers :: r0 :: rest).length = 1 ∧
              ((headers :: r0 :: rest).headD [] = [] ∨
                ((headers :: r0 :: rest).headD []).all (fun c => pyStrip c = ""))) := by
            rintro ⟨hl, -⟩
            simp at hl
          have hnoany : ¬ ((headers :: r0 :: rest).headD []).any
              (fun h => pyStrip h ≠ "") = true := by
            simp only [List.headD_cons]
            intro hany
            rcases List.any_eq_true.mp hany with ⟨x, hx, hxne⟩
            have hxall := List.all_eq_true.mp hb x hx
            simp at hxall hxne
            exact hxne hxall
          have hopt : optimize_table_for_display table_name headers (r0 :: rest) w s1 s2 =
              optimizeCore headers (r0 :: rest) headers.length w s1 s2 := by
            unfold optimize_table_for_display
            rw [if_neg (by simp [hne])]
          rw [hopt]
          simp only [optimizeCore]
          rw [if_neg hguard2, if_neg (by omega)]
          have hct : create_transposed_pdf_table (headers :: r0 :: rest) "" s2 7 = none := by
            unfold create_transposed_pdf_table
            rw [if_pos (Or.inr (Or.inr hnoany))]
          rw [hct]
          simp [renderedGrids]
    · -- some non-blank header cell: the clean cutover
      have hnb : headers.any (fun c => pyStrip c ≠ "") = true := by
        cases hany : headers.any (fun c => pyStrip c ≠ "") with
        | true => rfl
        | false =>
          exfalso
          apply hb
          rw [List.all_eq_true]
          intro x hx
          have hfx := List.any_eq_false.mp hany x hx
          simpa using hfx
      constructor
      · intro hle
        rw [if_neg (by
          rintro (hc | ⟨-, hc⟩)
          · exact hne hc
          · exact hb hc)]
        exact (optimize_layout_nonblank table_name headers rows w s1 s2 hrect hnb).1 hle
      · intro hgt
        rw [if_neg hb]
        exact (optimize_layout_nonblank table_name headers rows w s1 s2 hrect hnb).2 hgt

/-- C1 (witness): the amended cutover evaluated on a concrete 26-column
table with non-blank headers, rendered transposed. -/
theorem c1_layout_cutover_cases_witness :
    renderedGrids (optimize_table_for_display "wide"
        ((List.range 26).map (fun i => "h" ++ toString i))
        [(List.range 26).map (fun i => toString i)] 720 [] []).2 =
      [(transpose_table (((List.range 26).map (fun i => "h" ++ toString i)) ::
          [(List.range 26).map (fun i => toString i)])).map
        (fun row => row.map htmlEscape)] := by
  rw [(c1_layout_cutover_cases "wide" ((List.range 26).map (fun i => "h" ++ toString i))
    [(List.range 26).map (fun i => toString i)] 720 [] []
    (by decide)).2 (by decide)]
  rw [if_neg (by decide)]

/-- C5: the checklist status-value mapping is total over all string
inputs, in both the enriched branch (description map present,
lines 657-660) and the plain branch (lines 667-670): "true" maps to
"Completed", "false" to "Not Completed", the empty string to a single
space, and every other value is passed through unchanged. -/
theorem c5_checklist_value_mapping (v : String) :
    (v = "true" → formatChecklistValueEnriched v = "Completed" ∧
      formatChecklistValuePlain v = "Completed") ∧
    (v = "false" → formatChecklistValueEnriched v = "Not Completed" ∧
      formatChecklistValuePlain v = "Not Completed") ∧
    (v = "" → formatChecklistValueEnriched v = " " ∧
      formatChecklistValuePlain v = " ") ∧
    (v ≠ "true" → v ≠ "false" → v ≠ "" →
      formatChecklistValueEnriched v = v ∧ formatChecklistValuePlain v = v) := by
  refine ⟨?_, ?_, ?_, ?_⟩
  · rintro rfl
    exact ⟨rfl, rfl⟩
  · rintro rfl
    exact ⟨rfl, rfl⟩
  · rintro rfl
    exact ⟨rfl, rfl⟩
  · intro h1 h2 h3
    unfold formatChecklistValueEnriched formatChecklistValuePlain
    rw [if_neg h2, if_neg h1, if_neg h3]
    exact ⟨rfl, rfl⟩

/-- C5 (witness): the pass-through case evaluated on a concrete
non-boolean, nonempty value. -/
theorem c5_checklist_value_mapping_witness :
    formatChecklistValueEnriched "N/A" = "N/A" ∧ formatChecklistValuePlain "N/A" = "N/A" :=
  (c5_checklist_value_mapping "N/A").2.2.2 (by decide) (by decide) (by decide)

/-- The dispatcher is the first-success combinator over the six content
kinds followed by the ancillary fallback: shared by the C2 and C10
statements. -/
theorem dispatchObject_eq_kinds (M : ColMap) (env : Env) (ctx : SectionCtx)
    (obj_idx : Nat) (obj : Obj) (f : FieldE) (hf : obj.field = some f) :
    dispatchObject M env ctx obj_idx obj =
      (match firstSuccess (contentKinds M env ctx
          (pyStrip (pyLower (f.name.getD ("Unnamed Field " ++ toString (obj_idx + 1)))))
          (htmlEscape (f.name.getD ("Unnamed Field " ++ toString (obj_idx + 1)))) obj) with
       | some els => (true, els)
       | none => fallbackAncillary obj
           (htmlEscape (f.name.getD ("Unnamed Field " ++ toString (obj_idx + 1))))) := by
  simp only [dispatchObject, hf, contentKinds]
  cases hb1 : branchPropertyTable ctx
      (pyStrip (pyLower (f.name.getD ("Unnamed Field " ++ toString (obj_idx + 1)))))
      (htmlEscape (f.name.getD ("Unnamed Field " ++ toString (obj_idx + 1)))) obj with
  | some els => simp [firstSuccess, hb1]
  | none =>
    cases hb2 : branchStyledText ctx obj with
    | some els => simp [firstSuccess, hb1, hb2]
    | none =>
      cases hb3 : branchTableSection
          (htmlEscape (f.name.getD ("Unnamed Field " ++ toString (obj_idx + 1)))) obj with
      | some els => simp [firstSuccess, hb1, hb2, hb3]
      | none =>
        cases hb4 : branchHierarchy M obj with
        | some els => simp [firstSuccess, hb1, hb2, hb3, hb4]
        | none =>
          cases hb5 : branchDocument env
              (htmlEscape (f.name.getD ("Unnamed Field " ++ toString (obj_idx + 1)))) obj with
          | some els => simp [firstSuccess, hb1, hb2, hb3, hb4, hb5]
          | none =>
            cases hb6 : branchAddin obj with
            | some els => simp [firstSuccess, hb1, hb2, hb3, hb4, hb5, hb6]
            | none => simp [firstSuccess, hb1, hb2, hb3, hb4, hb5, hb6]

/-- Dispatch on an object whose only payload is a non-blank addin: the
six kinds reduce to the addin preformatted block.  Shared by the C9
statements. -/
theorem dispatchObject_addin_only (M : ColMap) (env : Env) (ctx : SectionCtx)
    (obj_idx : Nat) (f : FieldE) (a : AddinE) (hdata : pyStrip a.data ≠ "") :
    dispatchObject M env ctx obj_idx
      { field := some f, propertyInstances := none, styledText := none,
        tableSection := none, hierarchyData := none, document := none,
        addin := some a, ancillaryData := none } =
      (true, [Elem.pre .code (htmlEscape (truncAt 2000 a.data))]) := by
  have hne : a.data ≠ "" := by
    intro hc
    apply hdata
    rw [hc]
    rfl
  simp [dispatchObject, branchPropertyTable, branchStyledText, branchTableSection,
    branchHierarchy, branchDocument, branchAddin, hne, hdata]

/-- Non-whitespace characters survive `dropWhile Char.isWhitespace`. -/
theorem dropWhile_ws_replicate (n : Nat) (c : Char) (h : c.isWhitespace = false) :
    (List.replicate n c).dropWhile Char.isWhitespace = List.replicate n c := by
  cases n with
  | zero => rfl
  | succ m => simp [List.replicate_succ, List.dropWhile_cons, h]

theorem pyStrip_replicate (n : Nat) (c : Char) (h : c.isWhitespace = false) :
    pyStrip (String.mk (List.replicate n c)) = String.mk (List.replicate n c) := by
  unfold pyStrip
  show String.mk ((((List.replicate n c).dropWhile Char.isWhitespace).reverse.dropWhile
    Char.isWhitespace).reverse) = _
  rw [dropWhile_ws_replicate n c h, List.reverse_replicate,
    dropWhile_ws_replicate n c h, List.reverse_replicate]

theorem flatMap_escCharL_replicate (n : Nat) :
    (List.replicate n (Char.ofNat 97)).flatMap escCharL =
      List.replicate n (Char.ofNat 97) := by
  induction n with
  | zero => rfl
  | succ m ih => simp only [List.replicate_succ, List.flatMap_cons, ih]; rfl

/-- C9 (counterexample): the claim says the addin blob is rendered
verbatim (HTML-escaped), but the dispatcher truncates blobs longer than
2000 characters and appends an ellipsis (line 817): on a blob of 2001
`a` characters the rendered preformatted text differs from the escaped
blob. -/
theorem c9_addin_verbatim_cex :
    (dispatchObject [] env0 { raw := none, descs := [] } 0
      { field := some { name := some "Blob" }, propertyInstances := none,
        styledText := none, tableSection := none, hierarchyData := none,
        document := none,
        addin := some { data := String.mk (List.replicate 2001 (Char.ofNat 97)) },
        ancillaryData := none }).2 ≠
      [Elem.pre .code (htmlEscape (String.mk (List.replicate 2001 (Char.ofNat 97))))] := by
  have hws : (Char.ofNat 97).isWhitespace = false := by decide
  have hdata : pyStrip (String.mk (List.replicate 2001 (Char.ofNat 97))) ≠ "" := by
    rw [pyStrip_replicate 2001 (Char.ofNat 97) hws]
    intro hc
    have hlen := congrArg (fun s : String => s.data.length) hc
    simp only [List.length_replicate, List.length_nil] at hlen
    omega
  rw [dispatchObject_addin_only [] env0 { raw := none, descs := [] } 0
    { name := some "Blob" } { data := String.mk (List.replicate 2001 (Char.ofNat 97)) } hdata]
  intro hc
  have hc2 : [Elem.pre .code (htmlEscape (truncAt 2000
      (String.mk (List.replicate 2001 (Char.ofNat 97)))))] =
      [Elem.pre .code (htmlEscape (String.mk (List.replicate 2001 (Char.ofNat 97))))] := hc
  have hcond : (String.mk (List.replicate 2001 (Char.ofNat 97))).length > 2000 := by
    show (List.replicate 2001 (Char.ofNat 97)).length > 2000
    rw [List.length_replicate]
    omega
  have hmin : min 2000 2001 = 2000 := by omega
  have ht : truncAt 2000 (String.mk (List.replicate 2001 (Char.ofNat 97))) =
      String.mk (List.replicate 2000 (Char.ofNat 97)) ++ "..." := by
    unfold truncAt
    rw [if_pos hcond]
    have htake : (String.mk (List.replicate 2001 (Char.ofNat 97))).toList.take 2000 =
        List.replicate 2000 (Char.ofNat 97) := by
      show (List.replicate 2001 (Char.ofNat 97)).take 2000 = _
      rw [List.take_replicate, hmin]
    rw [htake]
  have h3 : [Char.ofNat 46, Char.ofNat 46, Char.ofNat 46].flatMap escCharL =
      [Char.ofNat 46, Char.ofNat 46, Char.ofNat 46] := by decide
  have hx : htmlEscape (String.mk (List.replicate 2000 (Char.ofNat 97)) ++ "...") =
      String.mk (List.replicate 2000 (Char.ofNat 97) ++
        [Char.ofNat 46, Char.ofNat 46, Char.ofNat 46]) := by
    show String.mk ((List.replicate 2000 (Char.ofNat 97) ++
      [Char.ofNat 46, Char.ofNat 46, Char.ofNat 46]).flatMap escCharL) = _
    rw [List.flatMap_append, flatMap_escCharL_replicate, h3]
  have hy : htmlEscape (String.mk (List.replicate 2001 (Char.ofNat 97))) =
      String.mk (List.replicate 2001 (Char.ofNat 97)) := by
    show String.mk ((List.replicate 2001 (Char.ofNat 97)).flatMap escCharL) = _
    rw [flatMap_escCharL_replicate]
  rw [ht, hx, hy] at hc2
  simp only [List.cons.injEq, and_true, Elem.pre.injEq, true_and] at hc2
  have hlen := congrArg (fun s : String => s.data.length) hc2
  simp only [List.length_append, List.length_replicate, List.length_cons,
    List.length_nil] at hlen
  omega

/-- C9 (amended): for every object whose only content is an addin with a
non-blank `data` attribute, the dispatcher produces exactly one block:
the blob HTML-escaped as fixed-width preformatted text, truncated to its
first 2000 characters with a trailing ellipsis when longer — no
property-list or table block is produced for the object. -/
theorem c9_addin_only (M : ColMap) (env : Env) (ctx : SectionCtx) (obj_idx : Nat)
    (f : FieldE) (a : AddinE) (hdata : pyStrip a.data ≠ "") :
    dispatchObject M env ctx obj_idx
      { field := some f, propertyInstances := none, styledText := none,
        tableSection := none, hierarchyData := none, document := none,
        addin := some a, ancillaryData := none } =
      (true, [Elem.pre .code (htmlEscape (truncAt 2000 a.data))]) :=
  dispatchObject_addin_only M env ctx obj_idx f a hdata

/-- C9 (witness): the amended addin rendering evaluated on a concrete
short blob. -/
theorem c9_addin_only_witness :
    dispatchObject [] env0 { raw := none, descs := [] } 2
      { field := some { name := some "Blob" }, propertyInstances := none,
        styledText := none, tableSection := none, hierarchyData := none,
        document := none, addin := some { data := "x < y" }, ancillaryData := none } =
      (true, [Elem.pre .code (htmlEscape (truncAt 2000 "x < y"))]) :=
  c9_addin_only [] env0 { raw := none, descs := [] } 2 { name := some "Blob" }
    { data := "x < y" } (by decide)

/-- C10: for every object whose document element carries a documentType
other than "1" or "2" (such as the externally admitted "4"), the
embedded-document branch produces no blocks at all, and dispatch behaves
exactly as if the document element were absent, falling through to the
addin and ancillary-data fallbacks. -/
theorem c10_unknown_doctype_falls_through (M : ColMap) (env : Env) (ctx : SectionCtx)
    (obj_idx : Nat) (obj : Obj) (d : DocumentE) (hdoc : obj.document = some d)
    (h1 : d.documentType ≠ some "1") (h2 : d.documentType ≠ some "2") :
    (∀ fnd, branchDocument env fnd obj = none) ∧
    dispatchObject M env ctx obj_idx obj =
      dispatchObject M env ctx obj_idx { obj with document := none } := by
  obtain ⟨fld, pis, st, ts, hd, doc, ad, anc⟩ := obj
  simp only [Obj.document] at hdoc
  subst hdoc
  have hbd : ∀ fnd, branchDocument env fnd
      ⟨fld, pis, st, ts, hd, some d, ad, anc⟩ = none := by
    intro fnd
    simp only [branchDocument]
    cases d.text with
    | none => rfl
    | some b64 => simp [h1, h2]
  have hbd2 : ∀ fnd, branchDocument env fnd
      ⟨fld, pis, st, ts, hd, none, ad, anc⟩ = none := fun _ => rfl
  refine ⟨hbd, ?_⟩
  cases fld with
  | none => rfl
  | some f =>
    rw [dispatchObject_eq_kinds M env ctx obj_idx _ f rfl,
      dispatchObject_eq_kinds M env ctx obj_idx _ f rfl]
    simp only [contentKinds, hbd, hbd2]
    simp only [branchPropertyTable, branchStyledText, branchTableSection,
      branchHierarchy, branchAddin, fallbackAncillary]

/-- C2: for every dispatched object, the six content kinds (property-list
table, styled text, generic table section, hierarchy tables, embedded
document, addin blob) are tried in that fixed priority order and the
dispatcher's output is exactly the output of the first kind that
produces renderable content — later kinds contribute nothing even when
also present in the object's XML, and the ancillary fallback runs only
when all six kinds produced nothing.  Hence at most one kind produces
the object's content. -/
theorem c2_first_kind_short_circuits (M : ColMap) (env : Env) (ctx : SectionCtx)
    (obj_idx : Nat) (obj : Obj) (f : FieldE) (hf : obj.field = some f) :
    dispatchObject M env ctx obj_idx obj =
      (match firstSuccess (contentKinds M env ctx
          (pyStrip (pyLower (f.name.getD ("Unnamed Field " ++ toString (obj_idx + 1)))))
          (htmlEscape (f.name.getD ("Unnamed Field " ++ toString (obj_idx + 1)))) obj) with
       | some els => (true, els)
       | none => fallbackAncillary obj
           (htmlEscape (f.name.getD ("Unnamed Field " ++ toString (obj_idx + 1))))) :=
  dispatchObject_eq_kinds M env ctx obj_idx obj f hf

/-- C2 (witness): an object carrying both styled text and an addin blob
renders only the styled-text paragraph — the addin kind, though present,
contributes nothing. -/
theorem c2_first_kind_short_circuits_witness :
    dispatchObject [] env0 { raw := none, descs := [] } 0
      { field := some { name := some "Note" }, propertyInstances := none,
        styledText := some { text := some "note text", data := none },
        tableSection := none, hierarchyData := none, document := none,
        addin := some { data := "blob" }, ancillaryData := none } =
      (true, [Elem.para .body (htmlEscape "note text")]) := by
  rw [c2_first_kind_short_circuits [] env0 { raw := none, descs := [] } 0 _
    { name := some "Note" } rfl]
  decide

/-- C10 (witness): the fall-through evaluated on a concrete object with
documentType "4" and an addin payload. -/
theorem c10_unknown_doctype_falls_through_witness :
    (∀ fnd, branchDocument env0 fnd
      { field := some { name := some "Raw" }, propertyInstances := none,
        styledText := none, tableSection := none, hierarchyData := none,
        document := some { documentType := some "4", text := some "QUJD" },
        addin := some { data := "payload" }, ancillaryData := none } = none) ∧
    dispatchObject [] env0 { raw := none, descs := [] } 0
      { field := some { name := some "Raw" }, propertyInstances := none,
        styledText := none, tableSection := none, hierarchyData := none,
        document := some { documentType := some "4", text := some "QUJD" },
        addin := some { data := "payload" }, ancillaryData := none } =
    dispatchObject [] env0 { raw := none, descs := [] } 0
      { field := some { name := some "Raw" }, propertyInstances := none,
        styledText := none, tableSection := none, hierarchyData := none,
        document := none,
        addin := some { data := "payload" }, ancillaryData := none } :=
  c10_unknown_doctype_falls_through [] env0 { raw := none, descs := [] } 0 _
    { documentType := some "4", text := some "QUJD" } rfl (by decide) (by decide)

/-- No block produced by the segmentation loop is empty: blocks are only
flushed when the active accumulation is nonempty. -/
theorem segmentAux_no_empty_block :
    ∀ (rows active : List (List Cell)), [] ∉ segmentAux active rows := by
  intro rows
  induction rows with
  | nil =>
    intro active
    simp only [segmentAux]
    by_cases h : active = []
    · simp [h]
    · simp [h]
  | cons r rest ih =>
    intro active
    simp only [segmentAux]
    by_cases he : _is_empty_row (rowStrVals r) = true
    · rw [if_pos he]
      by_cases ha : active = []
      · simp [ha]
        exact ih []
      · rw [if_neg ha]
        intro hc
        rcases List.mem_cons.mp hc with hc | hc
        · exact ha hc.symm
        · exact ih [] hc
    · rw [if_neg he]
      exact ih (active ++ [r])

/-- C4: the Excel extractor's row segmentation, applied to a worksheet
whose raw rows are (in order) non-empty A, non-empty B, blank, non-empty
C, non-empty D, blank, blank, non-empty E, yields exactly the three
table blocks {A,B}, {C,D}, {E}; and in general no segmentation of any
row list ever yields an empty block (so leading, trailing or consecutive
blank rows never produce one). -/
theorem c4_excel_segmentation (a b c d e x1 x2 x3 : List Cell)
    (ha : _is_empty_row (rowStrVals a) = false)
    (hb : _is_empty_row (rowStrVals b) = false)
    (hc : _is_empty_row (rowStrVals c) = false)
    (hd : _is_empty_row (rowStrVals d) = false)
    (he : _is_empty_row (rowStrVals e) = false)
    (hx1 : _is_empty_row (rowStrVals x1) = true)
    (hx2 : _is_empty_row (rowStrVals x2) = true)
    (hx3 : _is_empty_row (rowStrVals x3) = true) :
    segmentRows [a, b, x1, c, d, x2, x3, e] = [[a, b], [c, d], [e]] ∧
    ∀ rows : List (List Cell), [] ∉ segmentRows rows := by
  constructor
  · simp [segmentRows, segmentAux, ha, hb, hc, hd, he, hx1, hx2, hx3]
  · intro rows
    exact segmentAux_no_empty_block rows []

/-- C4 (witness): the segmentation evaluated on a concrete worksheet. -/
theorem c4_excel_segmentation_witness :
    segmentRows [[some "A"], [some "B"], [none], [some "C"], [some "D"],
        [none], [none], [some "E"]] =
      [[[some "A"], [some "B"]], [[some "C"], [some "D"]], [[some "E"]]] :=
  (c4_excel_segmentation [some "A"] [some "B"] [some "C"] [some "D"] [some "E"]
    [none] [none] [none] (by decide) (by decide) (by decide) (by decide)
    (by decide) (by decide) (by decide) (by decide)).1

/-! ## Dict and loader lemmas for C3 -/

theorem dlookup_dinsert_self {β : Type} (m : List (String × β)) (k : String) (v : β) :
    dlookup (dinsert m k v) k = some v := by
  induction m with
  | nil => simp [dinsert, dlookup]
  | cons p t ih =>
    by_cases h : p.1 = k
    · simp [dinsert, h, dlookup]
    · simpa [dinsert, h, dlookup] using ih

theorem dlookup_dinsert_ne {β : Type} (m : List (String × β)) (k k' : String) (v : β)
    (h : k' ≠ k) : dlookup (dinsert m k v) k' = dlookup m k' := by
  induction m with
  | nil => simp [dinsert, dlookup, Ne.symm h]
  | cons p t ih =>
    by_cases hp : p.1 = k
    · have hp' : ¬ p.1 = k' := by
        rw [hp]
        exact Ne.symm h
      simp [dinsert, hp, dlookup, Ne.symm h, hp']
    · have hstep : dinsert (p :: t) k v = p :: dinsert t k v := by
        simp [dinsert, hp]
      rw [hstep]
      by_cases hp2 : p.1 = k'
      · simp [dlookup, hp2]
      · simpa [dlookup, hp2] using ih

theorem isSome_dlookup_dinsert {β : Type} (m : List (String × β)) (k k' : String)
    (v : β) (h : (dlookup m k').isSome) : (dlookup (dinsert m k v) k').isSome := by
  by_cases hk : k' = k
  · subst hk
    rw [dlookup_dinsert_self]
    rfl
  · rw [dlookup_dinsert_ne m k k' v hk]
    exact h

/-- First-operand-biased choice, shared by the loader lemma statements so
that they mention one matcher constant. -/
def orElseO {β : Type} (a b : Option β) : Option β :=
  match a with
  | some v => some v
  | none => b

/-- The last `some` produced while scanning a list left to right. -/
def lastSome {α β : Type} (upd : α → Option β) (l : List α) : Option β :=
  l.foldl (fun acc a => orElseO (upd a) acc) none

theorem lastSome_foldl {α β : Type} (upd : α → Option β) (l : List α) (acc : Option β) :
    l.foldl (fun acc a => orElseO (upd a) acc) acc = orElseO (lastSome upd l) acc := by
  induction l generalizing acc with
  | nil => rfl
  | cons a t ih =>
    simp only [List.foldl_cons]
    rw [ih]
    have h2 : lastSome upd (a :: t) = orElseO (lastSome upd t) (orElseO (upd a) none) := by
      show List.foldl _ _ t = _
      rw [ih]
    rw [h2]
    cases lastSome upd t <;> cases h : upd a <;> simp [orElseO, h]

/-- Folding a step function whose effect on an observation is
replace-or-keep: the final observation is the last replacement, if any,
else the initial observation. -/
theorem lastSome_observe {α σ β : Type} (step : σ → α → σ) (obs : σ → Option β)
    (upd : α → Option β)
    (h : ∀ s a, obs (step s a) = orElseO (upd a) (obs s))
    (l : List α) (s : σ) :
    obs (l.foldl step s) = orElseO (lastSome upd l) (obs s) := by
  induction l generalizing s with
  | nil => rfl
  | cons a t ih =>
    simp only [List.foldl_cons]
    rw [ih (step s a), h]
    have h2 : lastSome upd (a :: t) = orElseO (lastSome upd t) (orElseO (upd a) none) := by
      show List.foldl _ _ t = _
      rw [lastSome_foldl]
    rw [h2]
    cases lastSome upd t <;> cases h3 : upd a <;> simp [orElseO, h3]

/-- The value a single `field` element assigns to internal tag `k`
(lines 254-259), if any. -/
def fieldUpdate (k : String) (fld : SField) : Option String :=
  match fld.key, fld.name with
  | some fk, some v => if fk ≠ "" ∧ v ≠ "" ∧ ("F_" ++ fk) = k then some v else none
  | _, _ => none

/-- The last value a `table` element assigns to tag `k` of table `t`. -/
def tableLastField (t k : String) (tbl : STable) : Option String :=
  match tbl.name with
  | none => none
  | some nm =>
    if nm = "" then none
    else if nm = t then lastSome (fieldUpdate k) tbl.fields
    else none

/-- The last value a schema file assigns to tag `k` of table `t`. -/
def fileLastField (t k : String) (file : SchemaFile) : Option String :=
  lastSome (tableLastField t k) file

theorem fieldLookup_processField (m : ColMap) (nm t k : String) (fld : SField) :
    fieldLookup (processField m nm fld) t k =
      orElseO (if nm = t then fieldUpdate k fld else none) (fieldLookup m t k) := by
  unfold processField fieldUpdate
  match fld with
  | { key := none, name := kn } =>
    cases kn <;> by_cases hnt : nm = t <;> simp [hnt, orElseO]
  | { key := some fk, name := none } =>
    by_cases hnt : nm = t <;> simp [hnt, orElseO]
  | { key := some fk, name := some v } =>
    simp only
    by_cases hval : fk ≠ "" ∧ v ≠ ""
    · rw [if_pos hval]
      by_cases hnt : nm = t
      · subst hnt
        rw [if_pos rfl]
        by_cases htag : ("F_" ++ fk) = k
        · rw [if_pos ⟨hval.1, hval.2, htag⟩]
          unfold fieldLookup
          rw [dlookup_dinsert_self, Option.some_bind, htag, dlookup_dinsert_self]
          simp [orElseO]
        · rw [if_neg (fun hcond => htag hcond.2.2)]
          unfold fieldLookup
          rw [dlookup_dinsert_self, Option.some_bind,
            dlookup_dinsert_ne _ _ k v (fun hc => htag hc.symm)]
          cases hm : dlookup m nm with
          | some tm => simp [orElseO]
          | none => simp [dlookup, orElseO]
      · rw [if_neg hnt]
        unfold fieldLookup
        rw [dlookup_dinsert_ne m nm t _ (fun hc => hnt hc.symm)]
        simp [orElseO]
    · rw [if_neg hval]
      by_cases hnt : nm = t
      · rw [if_pos hnt, if_neg (fun hcond => hval ⟨hcond.1, hcond.2.1⟩)]
        simp [orElseO]
      · rw [if_neg hnt]
        simp [orElseO]

theorem lastSome_cons {α β : Type} (upd : α → Option β) (a : α) (t : List α) :
    lastSome upd (a :: t) = orElseO (lastSome upd t) (upd a) := by
  show List.foldl _ _ t = _
  rw [lastSome_foldl]
  cases lastSome upd t <;> cases h : upd a <;> simp [orElseO, h]

theorem lastSome_const_none {α β : Type} (l : List α) :
    lastSome (fun _ => (none : Option β)) l = none := by
  induction l with
  | nil => rfl
  | cons a t ih =>
    rw [lastSome_cons, ih]
    rfl

/-- The registration step of lines 252-253 never changes any field
lookup: an already-registered table keeps its map, and a fresh table is
registered with the empty map. -/
theorem fieldLookup_register (m : ColMap) (nm t k : String) :
    fieldLookup (if (dlookup m nm).isSome then m else dinsert m nm []) t k =
      fieldLookup m t k := by
  by_cases h : (dlookup m nm).isSome
  · rw [if_pos h]
  · rw [if_neg h]
    by_cases ht : t = nm
    · subst ht
      unfold fieldLookup
      rw [dlookup_dinsert_self, Option.not_isSome_iff_eq_none.mp h]
      simp [dlookup]
    · unfold fieldLookup
      rw [dlookup_dinsert_ne m nm t [] ht]

theorem fieldLookup_processTable (m : ColMap) (tbl : STable) (t k : String) :
    fieldLookup (processTable m tbl) t k =
      orElseO (tableLastField t k tbl) (fieldLookup m t k) := by
  unfold processTable tableLastField
  cases tbl.name with
  | none => rfl
  | some nm =>
    dsimp only
    by_cases hnm : nm = ""
    · rw [if_pos hnm, if_pos hnm]
      rfl
    · rw [if_neg hnm, if_neg hnm]
      have hobs := lastSome_observe (fun acc fld => processField acc nm fld)
        (fun mm => fieldLookup mm t k)
        (fun fld => if nm = t then fieldUpdate k fld else none)
        (fun s a => fieldLookup_processField s nm t k a) tbl.fields
        (if (dlookup m nm).isSome then m else dinsert m nm [])
      simp only [] at hobs
      rw [hobs, fieldLookup_register m nm t k]
      by_cases hnt : nm = t
      · have hfun : (fun fld => if nm = t then fieldUpdate k fld else none) =
            fun fld => fieldUpdate k fld := by
          funext fld
          rw [if_pos hnt]
        rw [hfun, if_pos hnt]
      · simp [hnt, lastSome_const_none]

theorem fieldLookup_processSchemaFile (m : ColMap) (file : SchemaFile) (t k : String) :
    fieldLookup (processSchemaFile m file) t k =
      orElseO (fileLastField t k file) (fieldLookup m t k) := by
  exact lastSome_observe processTable (fun mm => fieldLookup mm t k) (tableLastField t k)
    (fun s tbl => fieldLookup_processTable s tbl t k) file m

theorem foldl_preserve {σ α : Type} (P : σ → Prop) (step : σ → α → σ)
    (h : ∀ s a, P s → P (step s a)) :
    ∀ (l : List α) (s : σ), P s → P (l.foldl step s) := by
  intro l
  induction l with
  | nil => intro s hs; exact hs
  | cons a t ih => intro s hs; exact ih _ (h s a hs)

theorem isSome_processField (m : ColMap) (nm t : String) (fld : SField)
    (h : (dlookup m t).isSome) : (dlookup (processField m nm fld) t).isSome := by
  unfold processField
  match fld with
  | { key := none, name := kn } => cases kn <;> exact h
  | { key := some fk, name := none } => exact h
  | { key := some fk, name := some v } =>
    by_cases hval : fk ≠ "" ∧ v ≠ ""
    · simp only [if_pos hval]
      exact isSome_dlookup_dinsert _ _ _ _ h
    · simp only [if_neg hval]
      exact h

theorem isSome_processTable (m : ColMap) (tbl : STable) (t : String)
    (h : (dlookup m t).isSome) : (dlookup (processTable m tbl) t).isSome := by
  unfold processTable
  cases tbl.name with
  | none => exact h
  | some nm =>
    dsimp only
    by_cases hnm : nm = ""
    · rw [if_pos hnm]
      exact h
    · rw [if_neg hnm]
      refine foldl_preserve (fun mm => (dlookup mm t).isSome) _
        (fun s a hs => isSome_processField s nm t a hs) tbl.fields _ ?_
      by_cases hr : (dlookup m nm).isSome
      · rw [if_pos hr]
        exact h
      · rw [if_neg hr]
        exact isSome_dlookup_dinsert _ _ _ _ h

theorem isSome_processSchemaFile (m : ColMap) (file : SchemaFile) (t : String)
    (h : (dlookup m t).isSome) : (dlookup (processSchemaFile m file) t).isSome :=
  foldl_preserve (fun mm => (dlookup mm t).isSome) processTable
    (fun s a hs => isSome_processTable s a t hs) file m h

/-- A schema file defining table "T" with field key 1 named "A". -/
def schemaFileA : SchemaFile :=
  [{ name := some "T", fields := [{ key := some "1", name := some "A" }] }]

/-- A later schema file redefining key 1 of table "T" and adding key 2. -/
def schemaFileB : SchemaFile :=
  [{ name := some "T",
     fields := [{ key := some "1", name := some "C" },
                { key := some "2", name := some "B" }] }]

/-- C3 (counterexample): the claim says field entries for a table name
registered by an earlier file do not replace or extend the earlier
registration, but the loader merges them: after loading file A (key 1 →
"A") and then file B (key 1 → "C", key 2 → "B") for the same table "T",
the later file's entries have replaced key 1 and extended the map with
key 2; a schema file naming the hardcoded pre-registered table likewise
extends its fixed 14-entry map. -/
theorem c3_no_overwrite_cex :
    dlookup (load_column_mappings_from_schema_files [schemaFileA]) "T" =
      some [("F_1", "A")] ∧
    dlookup (load_column_mappings_from_schema_files [schemaFileA, schemaFileB]) "T" =
      some [("F_1", "C"), ("F_2", "B")] ∧
    fieldLookup (load_column_mappings_from_schema_files
        [[{ name := some "Media Equilibration and Readiness for Vial Thaw",
            fields := [{ key := some "999", name := some "X" }] }]])
      "Media Equilibration and Readiness for Vial Thaw" "F_999" = some "X" := by
  decide

/-- C3 (amended): a table registered by an earlier schema file is never
discarded or replaced wholesale by later files — it stays registered —
but its field entries ARE merged: after loading one more file, the
lookup of tag `k` of table `t` is the last value that file assigns to
(t, k), and otherwise whatever the earlier files (or the hardcoded
pre-registration) produced.  This also applies to the hardcoded table. -/
theorem c3_later_files_merge (files : List SchemaFile) (f : SchemaFile) (t k : String) :
    fieldLookup (load_column_mappings_from_schema_files (files ++ [f])) t k =
      orElseO (fileLastField t k f)
        (fieldLookup (load_column_mappings_from_schema_files files) t k) ∧
    ((dlookup (load_column_mappings_from_schema_files files) t).isSome →
      (dlookup (load_column_mappings_from_schema_files (files ++ [f])) t).isSome) := by
  have hload : load_column_mappings_from_schema_files (files ++ [f]) =
      processSchemaFile (load_column_mappings_from_schema_files files) f := by
    unfold load_column_mappings_from_schema_files
    rw [List.foldl_append]
    rfl
  constructor
  · rw [hload]
    exact fieldLookup_processSchemaFile _ f t k
  · rw [hload]
    intro h
    exact isSome_processSchemaFile _ f t h

/-- C3 (witness): the merge characterisation evaluated on the concrete
two-file scenario. -/
theorem c3_later_files_merge_witness :
    (fieldLookup (load_column_mappings_from_schema_files ([schemaFileA] ++ [schemaFileB]))
        "T" "F_2" =
      orElseO (fileLastField "T" "F_2" schemaFileB)
        (fieldLookup (load_column_mappings_from_schema_files [schemaFileA]) "T" "F_2")) ∧
    (dlookup (load_column_mappings_from_schema_files ([schemaFileA] ++ [schemaFileB]))
      "T").isSome :=
  ⟨(c3_later_files_merge [schemaFileA] schemaFileB "T" "F_2").1,
   (c3_later_files_merge [schemaFileA] schemaFileB "T" "F_2").2 (by decide)⟩

/-- The truthy collection-type subtitle of lines 588-590: present only
when the `collectionType` element exists and has a nonempty `name`. -/
def ctNameTruthy (root : Root) : Option String :=
  match root.collectionType with
  | some (some s) => if s ≠ "" then some s else none
  | _ => none

/-- C8 (counterexample): the claim says every parsed document without a
sectionSetView yields exactly a title heading and a no-content notice,
but when a collectionType subtitle is present the element list at the
missing-section check already has three entries (title, subtitle,
spacer), the `<= 2` guard of line 595 fails, and the output contains no
notice at all. -/
theorem c8_no_ssv_cex :
    processRoot [] env0 { name := some "R",
                          collectionType := some (some "T"),
                          sectionSetView := none } =
      [Elem.para .h1 "Report: R", Elem.para .h2 "Type: T", Elem.spacer (36/5)] ∧
    ∀ e ∈ processRoot [] env0 { name := some "R",
                                collectionType := some (some "T"),
                                sectionSetView := none },
      e ≠ Elem.para .body "No \x27sectionSetView\x27 (main content) found in the XML." :=
  ⟨rfl, by decide⟩

/-- C8 (amended): for every parsed document with no sectionSetView
element and no truthy collectionType name, the conversion assembles
exactly a title heading, a spacer, and the no-content notice — a
single-page block list, produced by a total function (no exception).
When a truthy collectionType name is present the notice is omitted. -/
theorem c8_no_ssv_notice (files : List SchemaFile) (env : Env) (root : Root)
    (hssv : root.sectionSetView = none) (hct : ctNameTruthy root = none) :
    processRoot files env root =
      [Elem.para .h1 ("Report: " ++ htmlEscape (root.name.getD "N/A Collection")),
       Elem.spacer (36/5),
       Elem.para .body "No \x27sectionSetView\x27 (main content) found in the XML."] := by
  rcases root with ⟨nm, ct, ssv⟩
  dsimp only [ctNameTruthy] at hct
  dsimp only at hssv
  subst hssv
  unfold processRoot
  rcases ct with _ | ct2
  · simp [finalAdjust, isPageBreakE]
  · rcases ct2 with _ | s
    · simp [finalAdjust, isPageBreakE]
    · dsimp only at hct
      have hs : s = "" := by
        by_cases h : s = ""
        · exact h
        · rw [if_pos h] at hct
          exact absurd hct (by simp)
      subst hs
      simp [finalAdjust, isPageBreakE]

/-- C8 (witness): the amended assembly evaluated on a concrete document
with no sections and no collection type. -/
theorem c8_no_ssv_notice_witness :
    processRoot [] env0 { name := some "R",
                          collectionType := none,
                          sectionSetView := none } =
      [Elem.para .h1 "Report: R", Elem.spacer (36/5),
       Elem.para .body "No \x27sectionSetView\x27 (main content) found in the XML."] := by
  rw [c8_no_ssv_notice [] env0 { name := some "R",
                                 collectionType := none,
                                 sectionSetView := none } rfl rfl]
  rfl

end PdfProc
